import Mathlib

/-!
# Dart VM embedding API: handle / scope / isolate checks

A shallow embedding of `runtime/vm/dart_api_impl.h` (the checking helpers of the
embedding API, `class Api`, `IsolateSaver`, the no-callback scope helpers), of
`Platform::Environment` from `runtime/bin/platform_win.cc` and of
`HostCPUFeatures::InitOnce` from `runtime/vm/cpu_arm.cc`, with the properties the
specification states about them.

Conventions of the embedding

* A nullable C++ pointer `T*` is `Option T` (`none` is `NULL`).
* A `Dart_Handle` is the address of a slot; the slot holds a `RawObject*`.
* A helper that may `return` from the enclosing function yields `Option r`:
  `some r` means the enclosing function returns `r` at once, `none` means control
  falls through to the next statement.
* `printf`-style formatting (`FATAL1`, `Api::NewError`) is interpreted by `vformat`.
-/

namespace Dart

/-! ## printf-style formatting -/

/-- One variadic argument of a `printf`-style call. -/
inductive FormatArg where
  | str (s : String)
  | intptr (n : Int)
  deriving DecidableEq, Repr

/-- Conversion specifier for `intptr_t`.  `platform/globals.h` is not part of this
unit; `Pd` is the `intptr_t` decimal conversion, `ld` on LP64 targets. -/
def Pd : String := "ld"

/-- Interpretation of a format over its argument list: `%s` consumes a string
argument, `%ld` an `intptr_t` argument printed in decimal; every other character is
copied. -/
def vformatChars : List Char → List FormatArg → List Char
  | '%' :: 's' :: rest, FormatArg.str s :: args => s.data ++ vformatChars rest args
  | '%' :: 'l' :: 'd' :: rest, FormatArg.intptr n :: args =>
      (toString n).data ++ vformatChars rest args
  | c :: rest, args => c :: vformatChars rest args
  | [], _ => []

/-- Formatting of a `printf`-style call. -/
def vformat (format : String) (args : List FormatArg) : String :=
  ⟨vformatChars format.data args⟩

/-- Text `part` occurs in `msg`. -/
def Mentions (msg part : String) : Prop := part.data <:+: msg.data

instance (msg part : String) : Decidable (Mentions msg part) := by
  unfold Mentions; infer_instance

/-! ## Isolate state -/

/-- Address of a handle slot. -/
abbrev Dart_Handle := Nat

/-- Local scope of API handles (`ApiLocalScope`); only its presence matters here. -/
structure ApiLocalScope where
  id : Nat
  deriving DecidableEq, Repr

/-- Per-isolate API state: `top_scope()` and the handle of the acquired error. -/
structure ApiState where
  top_scope : Option ApiLocalScope
  acquired_error : Dart_Handle
  deriving DecidableEq, Repr

/-- The fields of `Isolate` read by this header. -/
structure Isolate where
  api_state : Option ApiState
  no_callback_scope_depth : Int
  deriving DecidableEq, Repr

/-! ## `CHECK_CALLBACK_STATE` -/

/-- `CHECK_CALLBACK_STATE(isolate)`: when the no-callback depth is non-zero the
enclosing function returns `Api::AcquiredError(isolate)`.  `Api::AcquiredError` is
only declared in the header, so it is a parameter. -/
def CHECK_CALLBACK_STATE (AcquiredError : Isolate → Dart_Handle) (isolate : Isolate) :
    Option Dart_Handle :=
  if isolate.no_callback_scope_depth ≠ 0 then some (AcquiredError isolate) else none

/-- An API function whose first statement is `CHECK_CALLBACK_STATE(isolate)` and whose
remaining statements are `body`; the body may change the isolate. -/
def callbackCheckedOperation (AcquiredError : Isolate → Dart_Handle)
    (body : Isolate → Dart_Handle × Isolate) (isolate : Isolate) : Dart_Handle × Isolate :=
  match CHECK_CALLBACK_STATE AcquiredError isolate with
  | some early => (early, isolate)
  | none => body isolate

/-! ## Fatal checks: `CHECK_ISOLATE`, `CHECK_ISOLATE_SCOPE` -/

/-- How a checking helper ends.  `FATAL1` and `ASSERT` come from `platform/assert.h`,
which is not part of this unit: `FATAL1` prints its formatted message and aborts,
`ASSERT` aborts in a DEBUG build when its condition is false and is empty otherwise. -/
inductive Outcome where
  | fatal (msg : String)
  | assertionFailure
  | undefinedBehaviour
  | continues
  deriving DecidableEq, Repr

/-- `FATAL1(format, p1)`. -/
def FATAL1 (format : String) (p1 : String) : Outcome :=
  Outcome.fatal (vformat format [FormatArg.str p1])

/-- Format of the missing-isolate diagnostic. -/
def missingIsolateFormat : String :=
  "%s expects there to be a current isolate. Did you " ++
  "forget to call Dart_CreateIsolate or Dart_EnterIsolate?"

/-- Format of the missing-scope diagnostic. -/
def missingScopeFormat : String :=
  "%s expects to find a current scope. Did you forget to call " ++
  "Dart_EnterScope?"

/-- `CHECK_ISOLATE(isolate)`; `CURRENT_FUNC` is the canonical name of the calling
function. -/
def CHECK_ISOLATE (CURRENT_FUNC : String) (isolate : Option Isolate) : Outcome :=
  if isolate = none then FATAL1 missingIsolateFormat CURRENT_FUNC else Outcome.continues

/-- Fields of the isolate read through the pointer. -/
inductive FieldRead where
  | api_state
  | top_scope
  deriving DecidableEq, Repr

/-- `CHECK_ISOLATE_SCOPE(isolate)`, with the list of fields read (in order) next to
the outcome.  `debug` tells whether `ASSERT` is compiled in. -/
def CHECK_ISOLATE_SCOPE (debug : Bool) (CURRENT_FUNC : String) (isolate : Option Isolate) :
    List FieldRead × Outcome :=
  let tmp := isolate
  match CHECK_ISOLATE CURRENT_FUNC tmp with
  | Outcome.continues =>
    match tmp with
    | none => ([], Outcome.undefinedBehaviour)
    | some iso =>
      match iso.api_state with
      | none =>
        if debug then ([FieldRead.api_state], Outcome.assertionFailure)
        else ([FieldRead.api_state], Outcome.undefinedBehaviour)
      | some state =>
        if state.top_scope = none then
          ([FieldRead.api_state, FieldRead.top_scope], FATAL1 missingScopeFormat CURRENT_FUNC)
        else ([FieldRead.api_state, FieldRead.top_scope], Outcome.continues)
  | stopped => ([], stopped)

/-! ## Handles and error returns -/

/-- What a handle slot refers to, as far as the argument checks distinguish it
(`vm/object.h` is not part of this unit): `Object::null()`, an error object with its
message, or any other object with its class id. -/
inductive RawObject where
  | null
  | error (message : String)
  | object (cid : Nat)
  deriving DecidableEq, Repr

/-- `Object::IsNull`. -/
def RawObject.IsNull : RawObject → Bool
  | RawObject.null => true
  | _ => false

/-- `Object::IsError`. -/
def RawObject.IsError : RawObject → Bool
  | RawObject.error _ => true
  | _ => false

/-- The handle slots of the current isolate: contents of every slot and the address
of the next free slot. -/
structure HandleStore where
  slot : Dart_Handle → RawObject
  next : Dart_Handle

/-- Modelled from the spec: `Api::UnwrapHandle` is only declared in the header ("Unwraps
the raw object from the handle"); unwrapping dereferences the slot. -/
def Api.UnwrapHandle (store : HandleStore) (object : Dart_Handle) : RawObject :=
  store.slot object

/-- Modelled from the spec: `Api::NewError` is only declared in the header
("Generates a handle used to designate an error return").  Recoverable failures are
handles carrying an error value, and under an active no-callback guard an operation
that needs a fresh error handle returns the pre-allocated sentinel instead.  So, while
the no-callback depth of the current isolate is positive, it returns
`Api::AcquiredError(isolate)` and creates nothing; otherwise it formats its message,
stores a new error object in the next free slot and returns that slot.
`Api::AcquiredError` is only declared, so it is a parameter. -/
def Api.NewError (AcquiredError : Isolate → Dart_Handle) (isolate : Isolate)
    (store : HandleStore) (format : String) (args : List FormatArg) :
    Dart_Handle × HandleStore :=
  if 0 < isolate.no_callback_scope_depth then (AcquiredError isolate, store)
  else
    (store.next,
     { slot := Function.update store.slot store.next (RawObject.error (vformat format args)),
       next := store.next + 1 })

/-- The `if` / `else if` / `else` chain of `RETURN_TYPE_ERROR`, on the results of the
two tests `tmp.IsNull()` and `tmp.IsError()`. -/
def returnTypeErrorOn (isNull isError : Bool) (AcquiredError : Isolate → Dart_Handle)
    (isolate : Isolate) (CURRENT_FUNC : String) (store : HandleStore)
    (dart_handle : Dart_Handle) (handleText typeText : String) : Dart_Handle × HandleStore :=
  if isNull then
    Api.NewError AcquiredError isolate store "%s expects argument '%s' to be non-null."
      [FormatArg.str CURRENT_FUNC, FormatArg.str handleText]
  else if isError then
    (dart_handle, store)
  else
    Api.NewError AcquiredError isolate store "%s expects argument '%s' to be of type %s."
      [FormatArg.str CURRENT_FUNC, FormatArg.str handleText, FormatArg.str typeText]

/-- `RETURN_TYPE_ERROR(isolate, dart_handle, type)`: always returns from the enclosing
function.  `handleText` and `typeText` are the stringified arguments `#dart_handle`
and `#type`; `isolate` is the current isolate, which `Api::NewError` consults. -/
def RETURN_TYPE_ERROR (AcquiredError : Isolate → Dart_Handle) (isolate : Isolate)
    (CURRENT_FUNC : String) (store : HandleStore)
    (dart_handle : Dart_Handle) (handleText typeText : String) : Dart_Handle × HandleStore :=
  let tmp := Api.UnwrapHandle store dart_handle
  returnTypeErrorOn tmp.IsNull tmp.IsError AcquiredError isolate CURRENT_FUNC store
    dart_handle handleText typeText

/-- `RETURN_NULL_ERROR(parameter)`; `isolate` is the current isolate. -/
def RETURN_NULL_ERROR (AcquiredError : Isolate → Dart_Handle) (isolate : Isolate)
    (CURRENT_FUNC : String) (store : HandleStore) (parameterText : String) :
    Dart_Handle × HandleStore :=
  Api.NewError AcquiredError isolate store "%s expects argument '%s' to be non-null."
    [FormatArg.str CURRENT_FUNC, FormatArg.str parameterText]

/-- `CHECK_LENGTH(length, max_elements)`: `some r` when the enclosing function returns
`r`, `none` when control falls through.  `lengthText` is `#length`; `isolate` is the
current isolate. -/
def CHECK_LENGTH (AcquiredError : Isolate → Dart_Handle) (isolate : Isolate)
    (CURRENT_FUNC : String) (store : HandleStore) (length : Int)
    (lengthText : String) (max_elements : Int) : Option (Dart_Handle × HandleStore) :=
  let len := length
  let max := max_elements
  if len < 0 ∨ len > max then
    some (Api.NewError AcquiredError isolate store
      ("%s expects argument '%s' to be in the range [0..%" ++ Pd ++ "].")
      [FormatArg.str CURRENT_FUNC, FormatArg.str lengthText, FormatArg.intptr max])
  else none

/-- The handle `h` designates an error whose message is `msg`. -/
def IsErrorHandle (store : HandleStore) (h : Dart_Handle) (msg : String) : Prop :=
  Api.UnwrapHandle store h = RawObject.error msg

instance (store : HandleStore) (h : Dart_Handle) (msg : String) :
    Decidable (IsErrorHandle store h msg) := by
  unfold IsErrorHandle; infer_instance

/-- Modelled from the spec: `Api::Unwrap##Type##Handle(isolate, object)` is only declared
(by `DECLARE_UNWRAP`): "The handle will be null if the object was not of the requested
Type."  `IsType` is the type test of the requested class. -/
def Api.UnwrapTypeHandle (IsType : RawObject → Bool) (store : HandleStore)
    (object : Dart_Handle) : RawObject :=
  if IsType (Api.UnwrapHandle store object) then Api.UnwrapHandle store object
  else RawObject.null

/-- Modelled from the spec: the API functions that use `RETURN_TYPE_ERROR` live in
`dart_api_impl.cc`, which is not part of this unit.  A call site unwraps its argument
as the requested type and, when the unwrapped handle is null, rejects the argument
through `RETURN_TYPE_ERROR`; otherwise it runs its body. -/
def typeCheckedOperation (AcquiredError : Isolate → Dart_Handle) (isolate : Isolate)
    (IsType : RawObject → Bool) (CURRENT_FUNC : String)
    (body : HandleStore → Dart_Handle → Dart_Handle × HandleStore)
    (store : HandleStore) (dart_handle : Dart_Handle) (handleText typeText : String) :
    Dart_Handle × HandleStore :=
  if (Api.UnwrapTypeHandle IsType store dart_handle).IsNull then
    RETURN_TYPE_ERROR AcquiredError isolate CURRENT_FUNC store dart_handle handleText typeText
  else body store dart_handle

/-! ## `IsolateSaver` -/

/-- An `Isolate*` compared by identity: `NULL` or the address of an isolate. -/
abbrev IsolatePtr := Option Nat

/-- The thread-local current-isolate pointer. -/
structure ThreadState where
  current : IsolatePtr
  deriving DecidableEq, Repr

/-- Modelled from the spec: `Isolate::SetCurrent` is defined in `vm/isolate.cc`, which is
not part of this unit; it sets the thread-local pointer to the currently entered
isolate. -/
def Isolate.SetCurrent (current : IsolatePtr) (_thread : ThreadState) : ThreadState :=
  { current := current }

/-- `class IsolateSaver`. -/
structure IsolateSaver where
  saved_isolate_ : IsolatePtr
  deriving DecidableEq, Repr

/-- Constructor `IsolateSaver(Isolate* current_isolate)`. -/
def IsolateSaver.new (current_isolate : IsolatePtr) : IsolateSaver :=
  { saved_isolate_ := current_isolate }

/-- Destructor `~IsolateSaver()`. -/
def IsolateSaver.destroy (saver : IsolateSaver) (thread : ThreadState) : ThreadState :=
  Isolate.SetCurrent saver.saved_isolate_ thread

/-- How control leaves a block. -/
inductive BlockExit where
  | fallThrough
  | earlyReturn
  deriving DecidableEq, Repr

/-- A block `{ IsolateSaver saver(current_isolate); body }`.  The saver is a local
object, so its destructor runs when control leaves the block, by falling off its end
or by a `return` inside the body. -/
def withIsolateSaver (current_isolate : IsolatePtr)
    (body : ThreadState → BlockExit × ThreadState) (thread : ThreadState) :
    BlockExit × ThreadState :=
  let saver := IsolateSaver.new current_isolate
  match body thread with
  | (BlockExit.fallThrough, after) => (BlockExit.fallThrough, saver.destroy after)
  | (BlockExit.earlyReturn, after) => (BlockExit.earlyReturn, saver.destroy after)

/-- A sequence of changes of the current isolate. -/
def setCurrentAll (changes : List IsolatePtr) (thread : ThreadState) : ThreadState :=
  changes.foldl (fun t p => Isolate.SetCurrent p t) thread

/-! ## No-callback scope -/

/-- Modelled from the spec: `Isolate::IncrementNoCallbackScopeDepth` is defined in
`vm/isolate.h`, which is not part of this unit.  The no-callback scope is a strictly
nested counter per isolate; entering adds one. -/
def Isolate.IncrementNoCallbackScopeDepth (isolate : Isolate) : Option Isolate :=
  some { isolate with no_callback_scope_depth := isolate.no_callback_scope_depth + 1 }

/-- Modelled from the spec: `Isolate::DecrementNoCallbackScopeDepth` is defined in
`vm/isolate.h`, which is not part of this unit.  Leaving subtracts one; leaving a scope
that was never entered is mismatched nesting, a fatal programming error (`none`). -/
def Isolate.DecrementNoCallbackScopeDepth (isolate : Isolate) : Option Isolate :=
  if 0 < isolate.no_callback_scope_depth then
    some { isolate with no_callback_scope_depth := isolate.no_callback_scope_depth - 1 }
  else none

/-- `START_NO_CALLBACK_SCOPE(isolate)`. -/
def START_NO_CALLBACK_SCOPE (isolate : Isolate) : Option Isolate :=
  isolate.IncrementNoCallbackScopeDepth

/-- `END_NO_CALLBACK_SCOPE(isolate)`. -/
def END_NO_CALLBACK_SCOPE (isolate : Isolate) : Option Isolate :=
  isolate.DecrementNoCallbackScopeDepth

/-- One use of the two scope helpers. -/
inductive ScopeCall where
  | start
  | finish
  deriving DecidableEq, Repr

/-- Runs a sequence of `START_NO_CALLBACK_SCOPE` / `END_NO_CALLBACK_SCOPE` uses. -/
def runScopeCalls : List ScopeCall → Isolate → Option Isolate
  | [], isolate => some isolate
  | ScopeCall.start :: rest, isolate =>
    (START_NO_CALLBACK_SCOPE isolate).bind (runScopeCalls rest)
  | ScopeCall.finish :: rest, isolate =>
    (END_NO_CALLBACK_SCOPE isolate).bind (runScopeCalls rest)

/-- Number of `START_NO_CALLBACK_SCOPE` uses in a sequence. -/
def startCount (calls : List ScopeCall) : Nat := calls.count ScopeCall.start

/-- Number of `END_NO_CALLBACK_SCOPE` uses in a sequence. -/
def finishCount (calls : List ScopeCall) : Nat := calls.count ScopeCall.finish

/-- Every scope is ended only after it was started: no initial part of the sequence
has more ends than starts. -/
def ProperlyNested (calls : List ScopeCall) : Prop :=
  ∀ n, n ≤ calls.length → finishCount (calls.take n) ≤ startCount (calls.take n)

instance (calls : List ScopeCall) : Decidable (ProperlyNested calls) := by
  unfold ProperlyNested; infer_instance

/-! ## Smi fast path of `class Api` -/

/-- The part of the object model (`vm/raw_object.h`, `vm/object.h`) that `Api::IsSmi`,
`Api::ClassId`, `Api::SmiValue` and `Api::IsInstance` consult.  It is not part of this
unit, so it is a parameter: `R` is the raw word of a slot, `H` the heap memory that
`GetClassId` reads. -/
structure ObjectModel (R H : Type) where
  IsHeapObject : R → Bool
  GetClassId : H → R → Int
  ValueFromRaw : R → Int
  kSmiCid : Int
  kInstanceCid : Int

/-- `Api::IsSmi(handle)`; `slots` is the memory the handle points into. -/
def Api.IsSmi {R H : Type} (M : ObjectModel R H) (slots : Dart_Handle → R)
    (handle : Dart_Handle) : Bool :=
  let raw := slots handle
  !M.IsHeapObject raw

/-- `Api::SmiValue(handle)`. -/
def Api.SmiValue {R H : Type} (M : ObjectModel R H) (slots : Dart_Handle → R)
    (handle : Dart_Handle) : Int :=
  let value := slots handle
  M.ValueFromRaw value

/-- `Api::ClassId(handle)`. -/
def Api.ClassId {R H : Type} (M : ObjectModel R H) (slots : Dart_Handle → R) (heap : H)
    (handle : Dart_Handle) : Int :=
  let raw := slots handle
  if !M.IsHeapObject raw then M.kSmiCid
  else M.GetClassId heap raw

/-- `Api::IsInstance(handle)`. -/
def Api.IsInstance {R H : Type} (M : ObjectModel R H) (slots : Dart_Handle → R) (heap : H)
    (handle : Dart_Handle) : Bool :=
  decide (Api.ClassId M slots heap handle ≥ M.kInstanceCid)

/-! ## `Platform::Environment` (Windows) -/

/-- A wide character, by its code. -/
abbrev wchar_t := Nat

/-- Code of a character literal used as a wide character. -/
def wideChar (c : Char) : wchar_t := c.toNat

/-- Scan of `wcslen` over the memory that starts at the pointer: the number of wide
characters before the first NUL, `none` when the scan leaves the block. -/
def wcslenFrom : List wchar_t → Option Nat
  | [] => none
  | c :: rest => if c = 0 then some 0 else (wcslenFrom rest).map (· + 1)

/-- `wcslen(tmp)`, for a pointer `tmp` (an index) into the block `mem`. -/
def wcslen (mem : List wchar_t) (tmp : Nat) : Option Nat :=
  wcslenFrom (mem.drop tmp)

/-- The counting loop of `Platform::Environment`:
`while (*tmp != 0) { if (*tmp != '=') i++; tmp += wcslen(tmp) + 1; }`.
The result is the final `i`; `none` when a read leaves the block or the fuel runs out. -/
def countLoop (mem : List wchar_t) : Nat → Nat → Nat → Option Nat
  | 0, _, _ => none
  | fuel + 1, tmp, i =>
    match mem[tmp]? with
    | none => none
    | some c =>
      if c ≠ 0 then
        match wcslen mem tmp with
        | none => none
        | some len =>
          countLoop mem fuel (tmp + (len + 1)) (if c ≠ wideChar '=' then i + 1 else i)
      else some i

/-- The fill loop of `Platform::Environment`:
`for (current = 0; current < i;) { if (*tmp != '=') result[current++] = WideToUtf8(tmp);
tmp += wcslen(tmp) + 1; }`.  `result` is the array under construction (an unset entry is
`none`); `WideToUtf8` (from `bin/utils.h`, not part of this unit) is a parameter applied
to the wide string that starts at `tmp`. -/
def fillLoop {β : Type} (WideToUtf8 : List wchar_t → β) (mem : List wchar_t) (i : Nat) :
    Nat → Nat → Nat → List (Option β) → Option (List (Option β))
  | 0, _, _, _ => none
  | fuel + 1, tmp, current, result =>
    if current < i then
      match mem[tmp]? with
      | none => none
      | some c =>
        match wcslen mem tmp with
        | none => none
        | some len =>
          if c ≠ wideChar '=' then
            fillLoop WideToUtf8 mem i fuel (tmp + (len + 1)) (current + 1)
              (result.set current (some (WideToUtf8 ((mem.drop tmp).take len))))
          else
            fillLoop WideToUtf8 mem i fuel (tmp + (len + 1)) current result
    else some result

/-- What `Platform::Environment` hands back: `NULL`, or the value stored in `*count`
together with the array. -/
inductive EnvironmentResult (β : Type) where
  | null
  | array (count : Nat) (result : List (Option β))
  deriving DecidableEq, Repr

/-- `Platform::Environment(count)` on Windows.  The argument is what
`GetEnvironmentStringsW()` returned.  Every loop iteration moves `tmp` forward inside the
block, so `length + 1` iterations are enough fuel. -/
def Platform.Environment {β : Type} (WideToUtf8 : List wchar_t → β)
    (GetEnvironmentStringsW : Option (List wchar_t)) : Option (EnvironmentResult β) :=
  match GetEnvironmentStringsW with
  | none => some EnvironmentResult.null
  | some strings =>
    match countLoop strings (strings.length + 1) 0 0 with
    | none => none
    | some i =>
      (fillLoop WideToUtf8 strings i (strings.length + 1) 0 0 (List.replicate i none)).map
        (EnvironmentResult.array i)

/-- The strings of an environment block laid out one after the other, each followed by
its NUL. -/
def layoutStrings : List (List wchar_t) → List wchar_t
  | [] => []
  | s :: rest => s ++ 0 :: layoutStrings rest

/-- Layout of a well-formed environment block: the strings, then the NUL that ends the
block, then whatever memory follows. -/
def environmentBlock (env : List (List wchar_t)) (trailing : List wchar_t) : List wchar_t :=
  layoutStrings env ++ 0 :: trailing

/-- An environment string is well formed: not empty and without an inner NUL. -/
def WellFormedString (s : List wchar_t) : Prop := s ≠ [] ∧ 0 ∉ s

instance (s : List wchar_t) : Decidable (WellFormedString s) := by
  unfold WellFormedString; infer_instance

/-- The environment strings that do not start with `=`. -/
def visibleStrings (env : List (List wchar_t)) : List (List wchar_t) :=
  env.filter (fun s => decide (s.head? ≠ some (wideChar '=')))

/-! ## `HostCPUFeatures::InitOnce` (ARM) -/

/-- `enum ARMVersion` (`vm/cpu_arm.h`, not part of this unit). -/
inductive ARMVersion where
  | ARMv5TE
  | ARMv6
  | ARMv7
  | ARMvUnknown
  deriving DecidableEq, Repr

/-- The `/proc/cpuinfo` fields that `CpuInfo::FieldContains` is asked about
(`vm/cpuinfo.h`, not part of this unit). -/
inductive CpuInfoField where
  | kCpuInfoProcessor
  | kCpuInfoModel
  | kCpuInfoHardware
  | kCpuInfoFeatures
  deriving DecidableEq, Repr

/-- The command-line flags defined in `cpu_arm.cc`. -/
structure CpuFlags where
  use_vfp : Bool
  use_neon : Bool
  use_integer_division : Bool
  sim_use_hardfp : Bool
  deriving DecidableEq, Repr

/-- The preprocessor configuration `cpu_arm.cc` is compiled under. -/
structure BuildConfig where
  HOST_ARCH_ARM : Bool
  TARGET_ARCH_ARM_5TE : Bool
  DEBUG : Bool
  ARM_PCS_VFP : Bool
  deriving DecidableEq, Repr

/-- The static members of `class HostCPUFeatures`. -/
structure HostCPUFeatures where
  integer_division_supported_ : Bool
  vfp_supported_ : Bool
  neon_supported_ : Bool
  hardfp_supported_ : Bool
  hardware_ : Option String
  arm_version_ : ARMVersion
  store_pc_read_offset_ : Int
  initialized_ : Bool
  deriving DecidableEq, Repr

/-- The static initialisers of `HostCPUFeatures`. -/
def HostCPUFeatures.statics : HostCPUFeatures :=
  { integer_division_supported_ := false
    vfp_supported_ := false
    neon_supported_ := false
    hardfp_supported_ := false
    hardware_ := none
    arm_version_ := ARMVersion.ARMvUnknown
    store_pc_read_offset_ := 8
    initialized_ := false }

/-- The version-detection chain of the native `InitOnce`.  `FieldContains` is
`CpuInfo::FieldContains` (`vm/cpuinfo.cc`, not part of this unit).  The result is the
state after the chain together with `is_arm64`; `none` is a failed `ASSERT` in a DEBUG
build. -/
def HostCPUFeatures.detectVersion (DEBUG : Bool) (FieldContains : CpuInfoField → String → Bool)
    (s : HostCPUFeatures) : Option (HostCPUFeatures × Bool) :=
  if FieldContains CpuInfoField.kCpuInfoProcessor "aarch64" ||
      FieldContains CpuInfoField.kCpuInfoModel "aarch64" then
    some ({ s with arm_version_ := ARMVersion.ARMv7 }, true)
  else if FieldContains CpuInfoField.kCpuInfoProcessor "ARM926EJ-S" ||
      FieldContains CpuInfoField.kCpuInfoModel "ARM926EJ-S" then
    some ({ s with arm_version_ := ARMVersion.ARMv5TE, store_pc_read_offset_ := 12 }, false)
  else if FieldContains CpuInfoField.kCpuInfoProcessor "Feroceon 88FR131" ||
      FieldContains CpuInfoField.kCpuInfoModel "Feroceon 88FR131" then
    some ({ s with arm_version_ := ARMVersion.ARMv5TE, store_pc_read_offset_ := 12 }, false)
  else if FieldContains CpuInfoField.kCpuInfoProcessor "ARMv6" ||
      FieldContains CpuInfoField.kCpuInfoModel "ARMv6" then
    some ({ s with arm_version_ := ARMVersion.ARMv6 }, false)
  else if DEBUG && !(FieldContains CpuInfoField.kCpuInfoProcessor "ARMv7" ||
      FieldContains CpuInfoField.kCpuInfoModel "ARMv7") then
    none
  else
    some ({ s with arm_version_ := ARMVersion.ARMv7 }, false)

/-- `HostCPUFeatures::InitOnce()` compiled with `HOST_ARCH_ARM`.  `GetCpuModel` is what
`CpuInfo::GetCpuModel()` returns. -/
def HostCPUFeatures.InitOnceHost (config : BuildConfig) (FLAG : CpuFlags)
    (FieldContains : CpuInfoField → String → Bool) (GetCpuModel : Option String)
    (s : HostCPUFeatures) : Option HostCPUFeatures :=
  let s := { s with hardware_ := GetCpuModel }
  match HostCPUFeatures.detectVersion config.DEBUG FieldContains s with
  | none => none
  | some (s, is_arm64) =>
    let s := { s with vfp_supported_ :=
      (FieldContains CpuInfoField.kCpuInfoFeatures "vfp" || is_arm64) && FLAG.use_vfp }
    let is_krait := FieldContains CpuInfoField.kCpuInfoHardware "QCT APQ8064"
    let s :=
      if is_krait then { s with integer_division_supported_ := FLAG.use_integer_division }
      else { s with integer_division_supported_ :=
        (FieldContains CpuInfoField.kCpuInfoFeatures "idiva" || is_arm64) &&
          FLAG.use_integer_division }
    let s := { s with neon_supported_ :=
      (FieldContains CpuInfoField.kCpuInfoFeatures "neon" || is_arm64) &&
        FLAG.use_vfp && FLAG.use_neon }
    let s := { s with hardfp_supported_ := config.ARM_PCS_VFP }
    some (if config.DEBUG then { s with initialized_ := true } else s)

/-- `HostCPUFeatures::InitOnce()` compiled without `HOST_ARCH_ARM` (the simulator). -/
def HostCPUFeatures.InitOnceSimulator (config : BuildConfig) (FLAG : CpuFlags)
    (GetCpuModel : Option String) (s : HostCPUFeatures) : Option HostCPUFeatures :=
  let s := { s with hardware_ := GetCpuModel }
  let s :=
    if config.TARGET_ARCH_ARM_5TE then { s with arm_version_ := ARMVersion.ARMv5TE }
    else { s with arm_version_ := ARMVersion.ARMv7 }
  let s := { s with integer_division_supported_ := FLAG.use_integer_division }
  let s := { s with vfp_supported_ := FLAG.use_vfp }
  let s := { s with neon_supported_ := FLAG.use_vfp && FLAG.use_neon }
  let s := { s with hardfp_supported_ := FLAG.sim_use_hardfp }
  some (if config.DEBUG then { s with initialized_ := true } else s)

/-- `HostCPUFeatures::InitOnce()` as selected by `#if defined(HOST_ARCH_ARM)`. -/
def HostCPUFeatures.InitOnce (config : BuildConfig) (FLAG : CpuFlags)
    (FieldContains : CpuInfoField → String → Bool) (GetCpuModel : Option String)
    (s : HostCPUFeatures) : Option HostCPUFeatures :=
  if config.HOST_ARCH_ARM then
    HostCPUFeatures.InitOnceHost config FLAG FieldContains GetCpuModel s
  else
    HostCPUFeatures.InitOnceSimulator config FLAG GetCpuModel s

end Dart

namespace Dart

/-! ## Formatting lemmas -/

theorem vformat_non_null (f a : String) :
    vformat "%s expects argument '%s' to be non-null." [FormatArg.str f, FormatArg.str a]
      = ⟨f.data ++ (" expects argument '".data ++ (a.data ++ "' to be non-null.".data))⟩ :=
  rfl

theorem vformat_of_type (f a t : String) :
    vformat "%s expects argument '%s' to be of type %s."
        [FormatArg.str f, FormatArg.str a, FormatArg.str t]
      = ⟨f.data ++ (" expects argument '".data ++ (a.data ++
          ("' to be of type ".data ++ (t.data ++ ".".data))))⟩ :=
  rfl

theorem vformat_range (f a : String) (n : Int) :
    vformat ("%s expects argument '%s' to be in the range [0..%" ++ Pd ++ "].")
        [FormatArg.str f, FormatArg.str a, FormatArg.intptr n]
      = ⟨f.data ++ (" expects argument '".data ++ (a.data ++
          ("' to be in the range ".data ++ (("[0.." ++ toString n ++ "]").data ++ ".".data))))⟩ := by
  have h : vformat ("%s expects argument '%s' to be in the range [0..%" ++ Pd ++ "].")
        [FormatArg.str f, FormatArg.str a, FormatArg.intptr n]
      = ⟨f.data ++ (" expects argument '".data ++ (a.data ++
          ("' to be in the range [0..".data ++ ((toString n).data ++ "].".data))))⟩ := rfl
  rw [h]
  simp [String.data_append]

theorem vformat_missing_isolate (f : String) :
    vformat missingIsolateFormat [FormatArg.str f]
      = ⟨f.data ++ (" expects there to be a current isolate. Did you " ++
          "forget to call Dart_CreateIsolate or Dart_EnterIsolate?").data⟩ :=
  rfl

theorem vformat_missing_scope (f : String) :
    vformat missingScopeFormat [FormatArg.str f]
      = ⟨f.data ++ (" expects to find a current scope. Did you forget to call " ++
          "Dart_EnterScope?").data⟩ :=
  rfl

theorem mentions_first (a rest : List Char) (p : String) (h : p.data = a) :
    Mentions ⟨a ++ rest⟩ p := by
  unfold Mentions
  exact ⟨[], rest, by simp [h]⟩

theorem mentions_third (a b c rest : List Char) (p : String) (h : p.data = c) :
    Mentions ⟨a ++ (b ++ (c ++ rest))⟩ p := by
  unfold Mentions
  exact ⟨a ++ b, rest, by simp [h]⟩

theorem mentions_fifth (a b c d e rest : List Char) (p : String) (h : p.data = e) :
    Mentions ⟨a ++ (b ++ (c ++ (d ++ (e ++ rest))))⟩ p := by
  unfold Mentions
  exact ⟨a ++ b ++ c ++ d, rest, by simp [h]⟩

theorem newError_unguarded (AcquiredError : Isolate → Dart_Handle) (isolate : Isolate)
    (store : HandleStore) (format : String) (args : List FormatArg)
    (h : isolate.no_callback_scope_depth = 0) :
    (Api.NewError AcquiredError isolate store format args).1 = store.next ∧
    (Api.NewError AcquiredError isolate store format args).2.next = store.next + 1 ∧
    IsErrorHandle (Api.NewError AcquiredError isolate store format args).2
      (Api.NewError AcquiredError isolate store format args).1 (vformat format args) := by
  simp [IsErrorHandle, Api.NewError, Api.UnwrapHandle, h]

theorem newError_guarded (AcquiredError : Isolate → Dart_Handle) (isolate : Isolate)
    (store : HandleStore) (format : String) (args : List FormatArg)
    (h : 0 < isolate.no_callback_scope_depth) :
    Api.NewError AcquiredError isolate store format args = (AcquiredError isolate, store) := by
  simp [Api.NewError, h]

theorem newError_created_or_not (AcquiredError : Isolate → Dart_Handle) (isolate : Isolate)
    (store : HandleStore) (format : String) (args : List FormatArg) :
    (0 < isolate.no_callback_scope_depth ∧
      Api.NewError AcquiredError isolate store format args = (AcquiredError isolate, store)) ∨
    ((Api.NewError AcquiredError isolate store format args).1 = store.next ∧
      (Api.NewError AcquiredError isolate store format args).2.next = store.next + 1 ∧
      IsErrorHandle (Api.NewError AcquiredError isolate store format args).2
        (Api.NewError AcquiredError isolate store format args).1 (vformat format args)) := by
  by_cases h : 0 < isolate.no_callback_scope_depth
  · exact Or.inl ⟨h, newError_guarded _ _ _ _ _ h⟩
  · right
    simp [IsErrorHandle, Api.NewError, Api.UnwrapHandle, h]

theorem vformat_non_null_text (f a : String) :
    vformat "%s expects argument '%s' to be non-null." [FormatArg.str f, FormatArg.str a]
      = f ++ " expects argument '" ++ a ++ "' to be non-null." := by
  rw [vformat_non_null]
  apply String.ext
  simp [String.data_append]

theorem vformat_of_type_text (f a t : String) :
    vformat "%s expects argument '%s' to be of type %s."
        [FormatArg.str f, FormatArg.str a, FormatArg.str t]
      = f ++ " expects argument '" ++ a ++ "' to be of type " ++ t ++ "." := by
  rw [vformat_of_type]
  apply String.ext
  simp [String.data_append]

theorem vformat_range_text (f a : String) (n : Int) :
    vformat ("%s expects argument '%s' to be in the range [0..%" ++ Pd ++ "].")
        [FormatArg.str f, FormatArg.str a, FormatArg.intptr n]
      = f ++ " expects argument '" ++ a ++ "' to be in the range " ++
          ("[0.." ++ toString n ++ "]") ++ "." := by
  rw [vformat_range]
  apply String.ext
  simp [String.data_append]

theorem mentions_non_null_text (f a : String) :
    Mentions (vformat "%s expects argument '%s' to be non-null."
      [FormatArg.str f, FormatArg.str a]) "to be non-null" := by
  rw [vformat_non_null]
  unfold Mentions
  refine ⟨f.data ++ " expects argument '".data ++ a.data ++ "' ".data, ".".data, ?_⟩
  have h : "' to be non-null.".data = "' ".data ++ "to be non-null".data ++ ".".data := rfl
  rw [h]
  simp only [List.append_assoc]

theorem mentions_of_type_text (f a t : String) :
    Mentions (vformat "%s expects argument '%s' to be of type %s."
      [FormatArg.str f, FormatArg.str a, FormatArg.str t]) "to be of type" := by
  rw [vformat_of_type]
  unfold Mentions
  refine ⟨f.data ++ " expects argument '".data ++ a.data ++ "' ".data,
    " ".data ++ t.data ++ ".".data, ?_⟩
  have h : "' to be of type ".data = "' ".data ++ "to be of type".data ++ " ".data := rfl
  rw [h]
  simp only [List.append_assoc]

/-! ## The no-callback counter -/

theorem runScopeCalls_depth (calls : List ScopeCall) :
    ∀ isolate : Isolate,
      (∀ n, (finishCount (calls.take n) : Int)
          ≤ isolate.no_callback_scope_depth + startCount (calls.take n)) →
      ∃ after, runScopeCalls calls isolate = some after ∧
        after.no_callback_scope_depth
          = isolate.no_callback_scope_depth + startCount calls - finishCount calls ∧
        after.api_state = isolate.api_state := by
  induction calls with
  | nil =>
    intro isolate _
    exact ⟨isolate, rfl, by simp [startCount, finishCount], rfl⟩
  | cons c rest ih =>
    intro isolate hn
    cases c with
    | start =>
      have hrest : ∀ n, (finishCount (rest.take n) : Int)
          ≤ (isolate.no_callback_scope_depth + 1) + startCount (rest.take n) := by
        intro n
        have h := hn (n + 1)
        simp [startCount, finishCount, List.take] at h ⊢
        omega
      obtain ⟨after, hrun, hdepth, hstate⟩ :=
        ih { isolate with no_callback_scope_depth := isolate.no_callback_scope_depth + 1 } hrest
      refine ⟨after, ?_, ?_, hstate⟩
      · simp [runScopeCalls, START_NO_CALLBACK_SCOPE, Isolate.IncrementNoCallbackScopeDepth,
          hrun]
      · rw [hdepth]
        simp [startCount, finishCount]
        omega
    | finish =>
      have hpos : 0 < isolate.no_callback_scope_depth := by
        have h := hn 1
        simp [startCount, finishCount, List.take] at h
        omega
      have hrest : ∀ n, (finishCount (rest.take n) : Int)
          ≤ (isolate.no_callback_scope_depth - 1) + startCount (rest.take n) := by
        intro n
        have h := hn (n + 1)
        simp [startCount, finishCount, List.take] at h ⊢
        omega
      obtain ⟨after, hrun, hdepth, hstate⟩ :=
        ih { isolate with no_callback_scope_depth := isolate.no_callback_scope_depth - 1 } hrest
      refine ⟨after, ?_, ?_, hstate⟩
      · simp [runScopeCalls, END_NO_CALLBACK_SCOPE, Isolate.DecrementNoCallbackScopeDepth,
          hpos, hrun]
      · rw [hdepth]
        simp [startCount, finishCount]
        omega

theorem properlyNested_finish_le_start (calls : List ScopeCall) (h : ProperlyNested calls) :
    finishCount calls ≤ startCount calls := by
  have := h calls.length (le_refl _)
  simpa using this

theorem properlyNested_all_prefixes (calls : List ScopeCall) (h : ProperlyNested calls)
    (n : Nat) : finishCount (calls.take n) ≤ startCount (calls.take n) := by
  by_cases hn : n ≤ calls.length
  · exact h n hn
  · rw [List.take_of_length_le (by omega)]
    exact properlyNested_finish_le_start calls h

/-! ## Reading a well-formed environment block -/

theorem wcslenFrom_string (s rest : List wchar_t) (hs : 0 ∉ s) :
    wcslenFrom (s ++ 0 :: rest) = some s.length := by
  induction s with
  | nil => simp [wcslenFrom]
  | cons c cs ih =>
    have hc : c ≠ 0 := fun h => hs (by simp [h])
    have hcs : 0 ∉ cs := fun h => hs (by simp [h])
    simp [wcslenFrom, hc, ih hcs]

theorem wcslen_at_string (pre s rest : List wchar_t) (hs : 0 ∉ s) :
    wcslen (pre ++ (s ++ 0 :: rest)) pre.length = some s.length := by
  simp [wcslen, wcslenFrom_string s rest hs]

theorem read_at_string (pre : List wchar_t) (c : wchar_t) (rest : List wchar_t) :
    (pre ++ c :: rest)[pre.length]? = some c := by
  rw [List.getElem?_append_right (le_refl _)]
  simp

theorem string_at (pre s rest : List wchar_t) :
    ((pre ++ (s ++ 0 :: rest)).drop pre.length).take s.length = s := by
  simp

theorem countLoop_block (env : List (List wchar_t)) (trailing : List wchar_t)
    (hwf : ∀ s ∈ env, WellFormedString s) :
    ∀ (pre : List wchar_t) (fuel i : Nat), env.length < fuel →
      countLoop (pre ++ environmentBlock env trailing) fuel pre.length i
        = some (i + (visibleStrings env).length) := by
  induction env with
  | nil =>
    intro pre fuel i hfuel
    obtain ⟨f, rfl⟩ : ∃ f, fuel = f + 1 := ⟨fuel - 1, by simp at hfuel; omega⟩
    have hread : (pre ++ environmentBlock [] trailing)[pre.length]? = some 0 := by
      simp only [environmentBlock, layoutStrings, List.nil_append]
      exact read_at_string pre 0 trailing
    rw [countLoop, hread]
    simp [visibleStrings]
  | cons s rest ih =>
    intro pre fuel i hfuel
    obtain ⟨f, rfl⟩ : ∃ f, fuel = f + 1 := ⟨fuel - 1, by simp at hfuel; omega⟩
    obtain ⟨hne, hzero⟩ := hwf s (by simp)
    obtain ⟨c, cs, rfl⟩ := List.exists_cons_of_ne_nil hne
    have hc : c ≠ 0 := fun h => hzero (by simp [h])
    have hmem : pre ++ environmentBlock ((c :: cs) :: rest) trailing
        = pre ++ ((c :: cs) ++ 0 :: environmentBlock rest trailing) := by
      simp [environmentBlock, layoutStrings]
    have hmem2 : pre ++ environmentBlock ((c :: cs) :: rest) trailing
        = (pre ++ (c :: cs) ++ [0]) ++ environmentBlock rest trailing := by
      simp [environmentBlock, layoutStrings]
    have hlen := wcslen_at_string pre (c :: cs) (environmentBlock rest trailing) hzero
    have hread : (pre ++ environmentBlock ((c :: cs) :: rest) trailing)[pre.length]? = some c := by
      rw [hmem]
      exact read_at_string pre c _
    have hnext := ih (fun t ht => hwf t (by simp [ht])) (pre ++ (c :: cs) ++ [0]) f
      (if c ≠ wideChar '=' then i + 1 else i) (by simp at hfuel; omega)
    rw [← hmem2] at hnext
    rw [← hmem] at hlen
    have hidx : pre.length + ((c :: cs).length + 1) = (pre ++ (c :: cs) ++ [0]).length := by
      simp
    rw [countLoop, hread]
    simp only [hc, ne_eq, not_false_eq_true, if_true, hlen]
    rw [hidx]
    simp only [ne_eq] at hnext
    rw [hnext]
    by_cases heq : c = wideChar '='
    · simp [visibleStrings, heq]
    · simp [visibleStrings, heq]
      omega

theorem set_first_unset {β : Type} (done : List β) (k : Nat) (x : β) :
    (done.map some ++ List.replicate (k + 1) none).set done.length (some x)
      = (done ++ [x]).map some ++ List.replicate k none := by
  induction done with
  | nil => simp [List.replicate_succ]
  | cons d ds ih => simpa using ih

theorem fillLoop_block {β : Type} (WideToUtf8 : List wchar_t → β)
    (env : List (List wchar_t)) (trailing : List wchar_t)
    (hwf : ∀ s ∈ env, WellFormedString s) :
    ∀ (pre : List wchar_t) (fuel : Nat) (done : List β), env.length < fuel →
      fillLoop WideToUtf8 (pre ++ environmentBlock env trailing)
          (done.length + (visibleStrings env).length) fuel pre.length done.length
          (done.map some ++ List.replicate (visibleStrings env).length none)
        = some ((done ++ (visibleStrings env).map WideToUtf8).map some) := by
  induction env with
  | nil =>
    intro pre fuel done hfuel
    obtain ⟨f, rfl⟩ : ∃ f, fuel = f + 1 := ⟨fuel - 1, by simp at hfuel; omega⟩
    simp [fillLoop, visibleStrings]
  | cons s rest ih =>
    intro pre fuel done hfuel
    obtain ⟨f, rfl⟩ : ∃ f, fuel = f + 1 := ⟨fuel - 1, by simp at hfuel; omega⟩
    obtain ⟨hne, hzero⟩ := hwf s (by simp)
    obtain ⟨c, cs, rfl⟩ := List.exists_cons_of_ne_nil hne
    have hmem : pre ++ environmentBlock ((c :: cs) :: rest) trailing
        = pre ++ ((c :: cs) ++ 0 :: environmentBlock rest trailing) := by
      simp [environmentBlock, layoutStrings]
    have hmem2 : pre ++ environmentBlock ((c :: cs) :: rest) trailing
        = (pre ++ (c :: cs) ++ [0]) ++ environmentBlock rest trailing := by
      simp [environmentBlock, layoutStrings]
    have hlen := wcslen_at_string pre (c :: cs) (environmentBlock rest trailing) hzero
    have hread : (pre ++ environmentBlock ((c :: cs) :: rest) trailing)[pre.length]? = some c := by
      rw [hmem]
      exact read_at_string pre c _
    have hstr := string_at pre (c :: cs) (environmentBlock rest trailing)
    rw [← hmem] at hlen hstr
    have hidx : pre.length + ((c :: cs).length + 1) = (pre ++ (c :: cs) ++ [0]).length := by
      simp
    have hrestwf : ∀ t ∈ rest, WellFormedString t := fun t ht => hwf t (by simp [ht])
    have hf : rest.length < f := by simp at hfuel; omega
    by_cases heq : c = wideChar '='
    · have hvis : visibleStrings ((c :: cs) :: rest) = visibleStrings rest := by
        simp [visibleStrings, heq]
      rw [hvis]
      by_cases hk : (visibleStrings rest).length = 0
      · have hnil : visibleStrings rest = [] := List.length_eq_zero.mp hk
        simp [fillLoop, hnil]
      · have hlt : done.length < done.length + (visibleStrings rest).length := by omega
        have hnext := ih hrestwf (pre ++ (c :: cs) ++ [0]) f done hf
        rw [← hmem2] at hnext
        rw [fillLoop]
        simp only [hlt, if_true, hread, hlen]
        rw [if_neg (not_not.mpr heq), hidx]
        exact hnext
    · have hvis : visibleStrings ((c :: cs) :: rest) = (c :: cs) :: visibleStrings rest := by
        simp [visibleStrings, heq]
      rw [hvis]
      have hlt : done.length < done.length + ((c :: cs) :: visibleStrings rest).length := by
        simp
      have hnext := ih hrestwf (pre ++ (c :: cs) ++ [0]) f (done ++ [WideToUtf8 (c :: cs)]) hf
      rw [← hmem2] at hnext
      have hi : (done ++ [WideToUtf8 (c :: cs)]).length + (visibleStrings rest).length
          = done.length + ((c :: cs) :: visibleStrings rest).length := by
        simp
        omega
      have hcur : (done ++ [WideToUtf8 (c :: cs)]).length = done.length + 1 := by simp
      rw [hi, hcur] at hnext
      rw [fillLoop]
      simp only [hlt, if_true, hread, hlen]
      rw [if_pos heq, hidx, hstr]
      simp only [List.length_cons] at hnext ⊢
      rw [set_first_unset, hnext]
      simp

theorem length_le_layoutStrings (env : List (List wchar_t)) :
    env.length ≤ (layoutStrings env).length := by
  induction env with
  | nil => simp [layoutStrings]
  | cons s rest ih =>
    simp [layoutStrings]
    omega

theorem length_lt_environmentBlock (env : List (List wchar_t)) (trailing : List wchar_t) :
    env.length < (environmentBlock env trailing).length + 1 := by
  have := length_le_layoutStrings env
  simp [environmentBlock]
  omega

/-- C1: an operation that starts with `CHECK_CALLBACK_STATE` returns exactly
`Api::AcquiredError(isolate)` and leaves the isolate untouched, whatever its body is,
when the no-callback depth is non-zero; at depth zero the check returns nothing and
the operation is its body. -/
theorem check_callback_state_returns_acquired_error
    (AcquiredError : Isolate → Dart_Handle) (body : Isolate → Dart_Handle × Isolate)
    (isolate : Isolate) :
    (isolate.no_callback_scope_depth ≠ 0 →
        CHECK_CALLBACK_STATE AcquiredError isolate = some (AcquiredError isolate) ∧
        callbackCheckedOperation AcquiredError body isolate
          = (AcquiredError isolate, isolate)) ∧
    (isolate.no_callback_scope_depth = 0 →
        CHECK_CALLBACK_STATE AcquiredError isolate = none ∧
        callbackCheckedOperation AcquiredError body isolate = body isolate) := by
  constructor
  · intro h
    simp [callbackCheckedOperation, CHECK_CALLBACK_STATE, h]
  · intro h
    simp [callbackCheckedOperation, CHECK_CALLBACK_STATE, h]

/-- C1 at a concrete isolate: depth 2, acquired-error handle 7, and a body that would
return handle 99 and reset the depth. -/
theorem check_callback_state_returns_acquired_error_witness :
    CHECK_CALLBACK_STATE (fun i => (i.api_state.map ApiState.acquired_error).getD 0)
        ⟨some ⟨none, 7⟩, 2⟩ = some 7 ∧
    callbackCheckedOperation (fun i => (i.api_state.map ApiState.acquired_error).getD 0)
        (fun i => (99, { i with no_callback_scope_depth := 0 })) ⟨some ⟨none, 7⟩, 2⟩
      = (7, ⟨some ⟨none, 7⟩, 2⟩) :=
  (check_callback_state_returns_acquired_error
    (fun i => (i.api_state.map ApiState.acquired_error).getD 0)
    (fun i => (99, { i with no_callback_scope_depth := 0 })) ⟨some ⟨none, 7⟩, 2⟩).1
    (by decide)

/-- C4: `CHECK_ISOLATE` ends fatally exactly when the isolate pointer is `NULL`; the
diagnostic is the missing-isolate text and names the calling operation; for every
non-null isolate the check lets execution continue. -/
theorem check_isolate_fatal_iff_null (CURRENT_FUNC : String) (isolate : Option Isolate) :
    ((∃ msg, CHECK_ISOLATE CURRENT_FUNC isolate = Outcome.fatal msg) ↔ isolate = none) ∧
    (isolate = none →
      CHECK_ISOLATE CURRENT_FUNC isolate
        = Outcome.fatal (vformat missingIsolateFormat [FormatArg.str CURRENT_FUNC]) ∧
      Mentions (vformat missingIsolateFormat [FormatArg.str CURRENT_FUNC]) CURRENT_FUNC) ∧
    (isolate ≠ none → CHECK_ISOLATE CURRENT_FUNC isolate = Outcome.continues) := by
  cases isolate with
  | none =>
    refine ⟨⟨fun _ => rfl, fun _ => ⟨_, rfl⟩⟩, fun _ => ⟨rfl, ?_⟩, fun h => absurd rfl h⟩
    rw [vformat_missing_isolate]
    exact mentions_first _ _ _ rfl
  | some iso =>
    refine ⟨⟨?_, fun h => (by cases h)⟩, fun h => (by cases h), fun _ => ?_⟩
    · rintro ⟨msg, h⟩
      simp [CHECK_ISOLATE] at h
    · simp [CHECK_ISOLATE]

/-- C4 at concrete inputs: a `NULL` isolate in `Dart_EnterScope` is fatal with the
full diagnostic. -/
theorem check_isolate_fatal_iff_null_witness :
    CHECK_ISOLATE "Dart_EnterScope" none
      = Outcome.fatal (vformat missingIsolateFormat [FormatArg.str "Dart_EnterScope"]) ∧
    Mentions (vformat missingIsolateFormat [FormatArg.str "Dart_EnterScope"])
      "Dart_EnterScope" :=
  (check_isolate_fatal_iff_null "Dart_EnterScope" none).2.1 rfl

/-- C5: `CHECK_ISOLATE_SCOPE` lets execution continue exactly when the isolate is
non-null and its `ApiState` has a non-null top scope; a `NULL` isolate ends with the
missing-isolate diagnostic and no field of the isolate has been read; a non-null
isolate whose `ApiState` has no top scope ends with the missing-scope diagnostic, which
names the calling operation. -/
theorem check_isolate_scope_continues_iff (debug : Bool) (CURRENT_FUNC : String)
    (isolate : Option Isolate) :
    ((CHECK_ISOLATE_SCOPE debug CURRENT_FUNC isolate).2 = Outcome.continues ↔
      ∃ iso state scope, isolate = some iso ∧ iso.api_state = some state ∧
        state.top_scope = some scope) ∧
    (isolate = none →
      CHECK_ISOLATE_SCOPE debug CURRENT_FUNC isolate
        = ([], Outcome.fatal (vformat missingIsolateFormat [FormatArg.str CURRENT_FUNC]))) ∧
    (∀ iso state, isolate = some iso → iso.api_state = some state → state.top_scope = none →
      (CHECK_ISOLATE_SCOPE debug CURRENT_FUNC isolate).2
        = Outcome.fatal (vformat missingScopeFormat [FormatArg.str CURRENT_FUNC]) ∧
      Mentions (vformat missingScopeFormat [FormatArg.str CURRENT_FUNC]) CURRENT_FUNC) := by
  refine ⟨?_, ?_, ?_⟩
  · cases isolate with
    | none =>
      simp [CHECK_ISOLATE_SCOPE, CHECK_ISOLATE, FATAL1]
    | some iso =>
      cases hs : iso.api_state with
      | none =>
        cases debug <;> simp [CHECK_ISOLATE_SCOPE, CHECK_ISOLATE, hs]
      | some state =>
        cases ht : state.top_scope with
        | none => simp [CHECK_ISOLATE_SCOPE, CHECK_ISOLATE, hs, ht, FATAL1]
        | some scope => simp [CHECK_ISOLATE_SCOPE, CHECK_ISOLATE, hs, ht]
  · intro h
    subst h
    rfl
  · intro iso state hiso hs ht
    subst hiso
    constructor
    · simp [CHECK_ISOLATE_SCOPE, CHECK_ISOLATE, hs, ht, FATAL1]
    · rw [vformat_missing_scope]
      exact mentions_first _ _ _ rfl

/-- C5 at concrete inputs: in `Dart_NewString`, an isolate whose `ApiState` has no top
scope ends with the missing-scope diagnostic. -/
theorem check_isolate_scope_continues_iff_witness :
    (CHECK_ISOLATE_SCOPE true "Dart_NewString" (some ⟨some ⟨none, 7⟩, 0⟩)).2
      = Outcome.fatal (vformat missingScopeFormat [FormatArg.str "Dart_NewString"]) ∧
    Mentions (vformat missingScopeFormat [FormatArg.str "Dart_NewString"]) "Dart_NewString" :=
  (check_isolate_scope_continues_iff true "Dart_NewString" (some ⟨some ⟨none, 7⟩, 0⟩)).2.2
    ⟨some ⟨none, 7⟩, 0⟩ ⟨none, 7⟩ rfl rfl rfl

/-- C6: when an `IsolateSaver` is constructed with the isolate that is current, then
after its destructor has run the current isolate is that isolate again, whatever the
code in between did to the current isolate (any sequence of `SetCurrent` calls, any
body) and whether the block was left by falling through or by an early return. -/
theorem isolate_saver_restores_current (thread : ThreadState) (current_isolate : IsolatePtr)
    (hcur : current_isolate = thread.current)
    (body : ThreadState → BlockExit × ThreadState) (changes : List IsolatePtr) :
    (withIsolateSaver current_isolate body thread).2.current = thread.current ∧
    (withIsolateSaver current_isolate body thread).1 = (body thread).1 ∧
    ((IsolateSaver.new current_isolate).destroy (setCurrentAll changes thread)).current
      = thread.current := by
  subst hcur
  refine ⟨?_, ?_, rfl⟩
  · unfold withIsolateSaver
    rcases hb : body thread with ⟨e, after⟩
    cases e <;> rfl
  · unfold withIsolateSaver
    rcases hb : body thread with ⟨e, after⟩
    cases e <;> rfl

/-- C6 at a concrete run: isolate 1 is current, the body enters isolate 2, then no
isolate, and returns early; afterwards isolate 1 is current again. -/
theorem isolate_saver_restores_current_witness :
    (withIsolateSaver (some 1)
        (fun t => (BlockExit.earlyReturn, setCurrentAll [some 2, none] t)) ⟨some 1⟩).2.current
      = some 1 ∧
    (withIsolateSaver (some 1)
        (fun t => (BlockExit.earlyReturn, setCurrentAll [some 2, none] t)) ⟨some 1⟩).1
      = BlockExit.earlyReturn ∧
    ((IsolateSaver.new (some 1)).destroy (setCurrentAll [some 2, none, some 5] ⟨some 1⟩)).current
      = some 1 :=
  isolate_saver_restores_current ⟨some 1⟩ (some 1) rfl
    (fun t => (BlockExit.earlyReturn, setCurrentAll [some 2, none] t)) [some 2, none, some 5]

/-- C7: starting from depth 0, any properly nested sequence of N
`START_NO_CALLBACK_SCOPE` and K `END_NO_CALLBACK_SCOPE` uses runs to completion and
leaves depth N - K; afterwards `CHECK_CALLBACK_STATE` returns the acquired-error
handle exactly when K < N, and returns nothing exactly when K = N. -/
theorem no_callback_scope_is_nesting_counter (AcquiredError : Isolate → Dart_Handle)
    (isolate : Isolate) (calls : List ScopeCall)
    (hzero : isolate.no_callback_scope_depth = 0) (hnested : ProperlyNested calls) :
    finishCount calls ≤ startCount calls ∧
    ∃ after, runScopeCalls calls isolate = some after ∧
      after.no_callback_scope_depth = (startCount calls : Int) - finishCount calls ∧
      (CHECK_CALLBACK_STATE AcquiredError after = some (AcquiredError after)
        ↔ finishCount calls < startCount calls) ∧
      (CHECK_CALLBACK_STATE AcquiredError after = none
        ↔ finishCount calls = startCount calls) := by
  have hle := properlyNested_finish_le_start calls hnested
  refine ⟨hle, ?_⟩
  obtain ⟨after, hrun, hdepth, _⟩ := runScopeCalls_depth calls isolate (by
    intro n
    have := properlyNested_all_prefixes calls hnested n
    rw [hzero]
    omega)
  rw [hzero] at hdepth
  refine ⟨after, hrun, by omega, ?_, ?_⟩
  · by_cases hlt : finishCount calls < startCount calls
    · have hne : after.no_callback_scope_depth ≠ 0 := by omega
      simp [CHECK_CALLBACK_STATE, hne, hlt]
    · have heq : after.no_callback_scope_depth = 0 := by omega
      simp [CHECK_CALLBACK_STATE, heq, hlt]
  · by_cases heq : finishCount calls = startCount calls
    · have h0 : after.no_callback_scope_depth = 0 := by omega
      simp [CHECK_CALLBACK_STATE, h0, heq]
    · have hne : after.no_callback_scope_depth ≠ 0 := by omega
      simp [CHECK_CALLBACK_STATE, hne, heq]

/-- C7 at a concrete sequence: start, start, end, start, end leaves depth 1 (three
starts, two ends), so the guard still returns the acquired error. -/
theorem no_callback_scope_is_nesting_counter_witness :
    finishCount [ScopeCall.start, ScopeCall.start, ScopeCall.finish, ScopeCall.start,
        ScopeCall.finish]
      ≤ startCount [ScopeCall.start, ScopeCall.start, ScopeCall.finish, ScopeCall.start,
        ScopeCall.finish] ∧
    ∃ after, runScopeCalls [ScopeCall.start, ScopeCall.start, ScopeCall.finish,
          ScopeCall.start, ScopeCall.finish] ⟨some ⟨none, 7⟩, 0⟩ = some after ∧
      after.no_callback_scope_depth
        = (startCount [ScopeCall.start, ScopeCall.start, ScopeCall.finish, ScopeCall.start,
            ScopeCall.finish] : Int)
          - finishCount [ScopeCall.start, ScopeCall.start, ScopeCall.finish, ScopeCall.start,
            ScopeCall.finish] ∧
      (CHECK_CALLBACK_STATE (fun _ => 7) after = some ((fun _ => 7) after)
        ↔ finishCount [ScopeCall.start, ScopeCall.start, ScopeCall.finish, ScopeCall.start,
            ScopeCall.finish]
          < startCount [ScopeCall.start, ScopeCall.start, ScopeCall.finish, ScopeCall.start,
            ScopeCall.finish]) ∧
      (CHECK_CALLBACK_STATE (fun _ => 7) after = none
        ↔ finishCount [ScopeCall.start, ScopeCall.start, ScopeCall.finish, ScopeCall.start,
            ScopeCall.finish]
          = startCount [ScopeCall.start, ScopeCall.start, ScopeCall.finish, ScopeCall.start,
            ScopeCall.finish]) :=
  no_callback_scope_is_nesting_counter (fun _ => 7) ⟨some ⟨none, 7⟩, 0⟩
    [ScopeCall.start, ScopeCall.start, ScopeCall.finish, ScopeCall.start, ScopeCall.finish]
    rfl (by decide)

/-- C8: `Api::ClassId` looks only at the raw word of the slot to recognise a Smi: when
the word is not a heap object it returns `kSmiCid` whatever the heap contains, and
otherwise it returns `raw->GetClassId()`; `Api::IsSmi` is true exactly when the word is
not a heap object, and `IsSmi` implies `ClassId = kSmiCid`. -/
theorem classId_smi_fast_path {R H : Type} (M : ObjectModel R H) (slots : Dart_Handle → R)
    (handle : Dart_Handle) :
    (Api.IsSmi M slots handle = true ↔ M.IsHeapObject (slots handle) = false) ∧
    (M.IsHeapObject (slots handle) = false →
      ∀ heap, Api.ClassId M slots heap handle = M.kSmiCid) ∧
    (M.IsHeapObject (slots handle) = true →
      ∀ heap, Api.ClassId M slots heap handle = M.GetClassId heap (slots handle)) ∧
    (Api.IsSmi M slots handle = true →
      ∀ heap, Api.ClassId M slots heap handle = M.kSmiCid) := by
  refine ⟨?_, ?_, ?_, ?_⟩
  · simp [Api.IsSmi]
  · intro h heap
    simp [Api.ClassId, h]
  · intro h heap
    simp [Api.ClassId, h]
  · intro h heap
    simp only [Api.IsSmi, Bool.not_eq_true'] at h
    simp [Api.ClassId, h]

/-- C8 at a concrete object model: raw words with tag bit 1 are heap objects whose
class id is stored in the heap; slot 0 holds the untagged word 10, so its class id is
`kSmiCid` for every heap. -/
theorem classId_smi_fast_path_witness :
    ∀ heap : Nat → Int,
      Api.ClassId
        { IsHeapObject := fun w => decide (w % 2 = 1), GetClassId := fun hp w => hp (w - 1),
          ValueFromRaw := fun w => (w / 2 : Nat), kSmiCid := 6, kInstanceCid := 40 }
        (fun h => if h = 0 then (10 : Nat) else 33) heap 0 = 6 :=
  (classId_smi_fast_path
    { IsHeapObject := fun w => decide (w % 2 = 1), GetClassId := fun hp w => hp (w - 1),
      ValueFromRaw := fun w => (w / 2 : Nat), kSmiCid := 6, kInstanceCid := 40 }
    (fun h => if h = 0 then (10 : Nat) else 33) 0).2.1 (by decide)

/-- C10: on every well-formed environment block (non-empty NUL-free strings, each
followed by a NUL, then the closing NUL), `Platform::Environment` runs to completion:
the counting loop yields the number of strings that do not start with `=`, the fill
loop stops with every entry of the array set, and the result is that count together
with exactly those strings, converted by `WideToUtf8`, in their original order. -/
theorem environment_lists_visible_strings {β : Type} (WideToUtf8 : List wchar_t → β)
    (env : List (List wchar_t)) (trailing : List wchar_t)
    (hwf : ∀ s ∈ env, WellFormedString s) :
    countLoop (environmentBlock env trailing) ((environmentBlock env trailing).length + 1) 0 0
      = some (visibleStrings env).length ∧
    fillLoop WideToUtf8 (environmentBlock env trailing) (visibleStrings env).length
        ((environmentBlock env trailing).length + 1) 0 0
        (List.replicate (visibleStrings env).length none)
      = some ((visibleStrings env).map (fun s => some (WideToUtf8 s))) ∧
    Platform.Environment WideToUtf8 (some (environmentBlock env trailing))
      = some (EnvironmentResult.array (visibleStrings env).length
          ((visibleStrings env).map (fun s => some (WideToUtf8 s)))) := by
  have hfuel := length_lt_environmentBlock env trailing
  have hcount : countLoop (environmentBlock env trailing)
      ((environmentBlock env trailing).length + 1) 0 0 = some (visibleStrings env).length := by
    have h := countLoop_block env trailing hwf [] _ 0 hfuel
    simpa using h
  have hfill : fillLoop WideToUtf8 (environmentBlock env trailing) (visibleStrings env).length
      ((environmentBlock env trailing).length + 1) 0 0
      (List.replicate (visibleStrings env).length none)
      = some ((visibleStrings env).map (fun s => some (WideToUtf8 s))) := by
    have h := fillLoop_block WideToUtf8 env trailing hwf [] _ [] hfuel
    simpa [Function.comp_def] using h
  refine ⟨hcount, hfill, ?_⟩
  simp [Platform.Environment, hcount, hfill]

/-- C10 at a concrete block holding `=C:`, `A=B`, `=`, `F`: the count is 2 and the
array holds `A=B` and `F`, in that order. -/
theorem environment_lists_visible_strings_witness :
    countLoop (environmentBlock [[61, 67, 58], [65, 61, 66], [61], [70]] [])
        ((environmentBlock [[61, 67, 58], [65, 61, 66], [61], [70]] []).length + 1) 0 0
      = some (visibleStrings [[61, 67, 58], [65, 61, 66], [61], [70]]).length ∧
    fillLoop (fun s => s) (environmentBlock [[61, 67, 58], [65, 61, 66], [61], [70]] [])
        (visibleStrings [[61, 67, 58], [65, 61, 66], [61], [70]]).length
        ((environmentBlock [[61, 67, 58], [65, 61, 66], [61], [70]] []).length + 1) 0 0
        (List.replicate (visibleStrings [[61, 67, 58], [65, 61, 66], [61], [70]]).length none)
      = some ((visibleStrings [[61, 67, 58], [65, 61, 66], [61], [70]]).map
          (fun s => some ((fun s => s) s))) ∧
    Platform.Environment (fun s => s)
        (some (environmentBlock [[61, 67, 58], [65, 61, 66], [61], [70]] []))
      = some (EnvironmentResult.array
          (visibleStrings [[61, 67, 58], [65, 61, 66], [61], [70]]).length
          ((visibleStrings [[61, 67, 58], [65, 61, 66], [61], [70]]).map
            (fun s => some ((fun s => s) s)))) :=
  environment_lists_visible_strings (fun s => s) [[61, 67, 58], [65, 61, 66], [61], [70]] []
    (by decide)

/-- C11, as stated, fails in the simulator build: compiled without `HOST_ARCH_ARM` and
with `TARGET_ARCH_ARM_5TE`, `InitOnce` sets `arm_version_` to ARMv5TE and never assigns
`store_pc_read_offset_`, which keeps its initial value 8, not 12. -/
theorem initOnce_simulator_armv5te_offset_is_8 :
    ∃ s, HostCPUFeatures.InitOnce
        { HOST_ARCH_ARM := false, TARGET_ARCH_ARM_5TE := true, DEBUG := false,
          ARM_PCS_VFP := false }
        { use_vfp := false, use_neon := false, use_integer_division := false,
          sim_use_hardfp := false }
        (fun _ _ => false) (some "sim") HostCPUFeatures.statics = some s ∧
      s.arm_version_ = ARMVersion.ARMv5TE ∧ s.store_pc_read_offset_ = 8 ∧
      s.store_pc_read_offset_ ≠ 12 :=
  ⟨_, rfl, rfl, rfl, by decide⟩

/-- C11, amended: `InitOnce`, run on the static initial values, completes unless a DEBUG
native build finds none of the five CPU patterns.  On a native ARM host the resulting
`store_pc_read_offset_` is 12 when `arm_version_` is ARMv5TE and 8 when it is ARMv6 or
ARMv7, the version is one of these three, and a CPU whose Processor or Model field
contains `aarch64` is ARMv7 whatever else its fields match.  In the simulator build the
version is ARMv5TE or ARMv7 as the target selects and `store_pc_read_offset_` stays at
its initial 8. -/
theorem initOnce_store_pc_read_offset (config : BuildConfig) (FLAG : CpuFlags)
    (FieldContains : CpuInfoField → String → Bool) (GetCpuModel : Option String) :
    (HostCPUFeatures.InitOnce config FLAG FieldContains GetCpuModel HostCPUFeatures.statics
        = none ↔
      (config.HOST_ARCH_ARM = true ∧ config.DEBUG = true ∧
        (FieldContains CpuInfoField.kCpuInfoProcessor "aarch64" ||
          FieldContains CpuInfoField.kCpuInfoModel "aarch64" ||
          FieldContains CpuInfoField.kCpuInfoProcessor "ARM926EJ-S" ||
          FieldContains CpuInfoField.kCpuInfoModel "ARM926EJ-S" ||
          FieldContains CpuInfoField.kCpuInfoProcessor "Feroceon 88FR131" ||
          FieldContains CpuInfoField.kCpuInfoModel "Feroceon 88FR131" ||
          FieldContains CpuInfoField.kCpuInfoProcessor "ARMv6" ||
          FieldContains CpuInfoField.kCpuInfoModel "ARMv6" ||
          FieldContains CpuInfoField.kCpuInfoProcessor "ARMv7" ||
          FieldContains CpuInfoField.kCpuInfoModel "ARMv7") = false)) ∧
    (∀ s, HostCPUFeatures.InitOnce config FLAG FieldContains GetCpuModel
        HostCPUFeatures.statics = some s →
      (config.HOST_ARCH_ARM = true →
        (s.arm_version_ = ARMVersion.ARMv5TE → s.store_pc_read_offset_ = 12) ∧
        (s.arm_version_ = ARMVersion.ARMv6 ∨ s.arm_version_ = ARMVersion.ARMv7 →
          s.store_pc_read_offset_ = 8) ∧
        s.arm_version_ ≠ ARMVersion.ARMvUnknown ∧
        ((FieldContains CpuInfoField.kCpuInfoProcessor "aarch64" ||
            FieldContains CpuInfoField.kCpuInfoModel "aarch64") = true →
          s.arm_version_ = ARMVersion.ARMv7)) ∧
      (config.HOST_ARCH_ARM = false →
        s.store_pc_read_offset_ = 8 ∧
        s.arm_version_
          = if config.TARGET_ARCH_ARM_5TE then ARMVersion.ARMv5TE else ARMVersion.ARMv7)) := by
  obtain ⟨host, five, debug, pcs⟩ := config
  cases host
  · cases five <;> cases debug <;>
      simp [HostCPUFeatures.InitOnce, HostCPUFeatures.InitOnceSimulator,
        HostCPUFeatures.statics]
  · simp only [HostCPUFeatures.InitOnce, HostCPUFeatures.InitOnceHost,
      HostCPUFeatures.detectVersion, HostCPUFeatures.statics, if_true]
    generalize FieldContains CpuInfoField.kCpuInfoProcessor "aarch64" = pa
    generalize FieldContains CpuInfoField.kCpuInfoModel "aarch64" = ma
    generalize FieldContains CpuInfoField.kCpuInfoProcessor "ARM926EJ-S" = p9
    generalize FieldContains CpuInfoField.kCpuInfoModel "ARM926EJ-S" = m9
    generalize FieldContains CpuInfoField.kCpuInfoProcessor "Feroceon 88FR131" = pf
    generalize FieldContains CpuInfoField.kCpuInfoModel "Feroceon 88FR131" = mf
    generalize FieldContains CpuInfoField.kCpuInfoProcessor "ARMv6" = p6
    generalize FieldContains CpuInfoField.kCpuInfoModel "ARMv6" = m6
    generalize FieldContains CpuInfoField.kCpuInfoProcessor "ARMv7" = p7
    generalize FieldContains CpuInfoField.kCpuInfoModel "ARMv7" = m7
    generalize FieldContains CpuInfoField.kCpuInfoHardware "QCT APQ8064" = krait
    by_cases ha : (pa || ma) = true
    · simp [ha]
      cases krait <;> cases debug <;> simp
    · by_cases h9 : (p9 || m9) = true
      · simp [ha, h9]
        cases krait <;> cases debug <;> simp
      · by_cases hf : (pf || mf) = true
        · simp [ha, h9, hf]
          cases krait <;> cases debug <;> simp
        · by_cases h6 : (p6 || m6) = true
          · simp [ha, h9, hf, h6]
            cases krait <;> cases debug <;> simp
          · by_cases h7 : (p7 || m7) = true
            · simp [ha, h9, hf, h6, h7]
              cases krait <;> cases debug <;> simp
            · cases debug
              · simp [ha, h9, hf, h6, h7]
                cases krait <;> simp
              · simp [ha, h9, hf, h6, h7]

/-- C11, amended, at a concrete native run: a release build on a CPU whose Processor
field contains `ARM926EJ-S` ends with ARMv5TE and store PC read offset 12. -/
theorem initOnce_store_pc_read_offset_witness :
    HostCPUFeatures.InitOnce
        { HOST_ARCH_ARM := true, TARGET_ARCH_ARM_5TE := false, DEBUG := false,
          ARM_PCS_VFP := true }
        { use_vfp := true, use_neon := true, use_integer_division := true,
          sim_use_hardfp := true }
        (fun field text => decide (field = CpuInfoField.kCpuInfoProcessor ∧ text = "ARM926EJ-S"))
        (some "EV3") HostCPUFeatures.statics
      = some { integer_division_supported_ := false, vfp_supported_ := false,
               neon_supported_ := false, hardfp_supported_ := true,
               hardware_ := some "EV3", arm_version_ := ARMVersion.ARMv5TE,
               store_pc_read_offset_ := 12, initialized_ := false } ∧
    (HostCPUFeatures.mk false false false true (some "EV3") ARMVersion.ARMv5TE 12
        false).store_pc_read_offset_ = 12 :=
  ⟨by decide,
   ((initOnce_store_pc_read_offset
      { HOST_ARCH_ARM := true, TARGET_ARCH_ARM_5TE := false, DEBUG := false,
        ARM_PCS_VFP := true }
      { use_vfp := true, use_neon := true, use_integer_division := true,
        sim_use_hardfp := true }
      (fun field text => decide (field = CpuInfoField.kCpuInfoProcessor ∧ text = "ARM926EJ-S"))
      (some "EV3")).2
      (HostCPUFeatures.mk false false false true (some "EV3") ARMVersion.ARMv5TE 12 false)
      (by decide)).1 rfl |>.1 rfl⟩

/-- C2, as stated, fails: with no no-callback guard active, `Dart_ClosureFunction`
rejects a handle to `null` (which is not an instance of the requested type `Instance`)
through `RETURN_TYPE_ERROR`, and the new error it returns says only that the argument
must be non-null; the expected type is not named. -/
theorem return_type_error_null_omits_type :
    (typeCheckedOperation (fun _ => 0) ⟨some ⟨some ⟨1⟩, 0⟩, 0⟩
        (fun o => decide (o = RawObject.object 42)) "Dart_ClosureFunction"
        (fun st h => (h, st)) ⟨fun _ => RawObject.null, 1⟩ 0 "closure" "Instance").1 = 1 ∧
    IsErrorHandle
      (typeCheckedOperation (fun _ => 0) ⟨some ⟨some ⟨1⟩, 0⟩, 0⟩
        (fun o => decide (o = RawObject.object 42)) "Dart_ClosureFunction"
        (fun st h => (h, st)) ⟨fun _ => RawObject.null, 1⟩ 0 "closure" "Instance").2 1
      "Dart_ClosureFunction expects argument 'closure' to be non-null." ∧
    ¬ Mentions "Dart_ClosureFunction expects argument 'closure' to be non-null." "Instance" := by
  refine ⟨by decide, by decide, by decide⟩

/-- C2, amended: a call that rejects a handle whose object is not of the requested
type through `RETURN_TYPE_ERROR` returns (a) the handle itself and the unchanged store
when the object is an error; (b) otherwise, while a no-callback guard is active, the
acquired-error handle and the unchanged store; (c) otherwise, with no guard active, a
newly created error: for a non-null object its message is
`<op> expects argument '<arg>' to be of type <type>.`, which names the calling
operation, the argument and the expected type, and for a null object its message is
`<op> expects argument '<arg>' to be non-null.`, which names the calling operation and
the argument. -/
theorem return_type_error_message (AcquiredError : Isolate → Dart_Handle) (isolate : Isolate)
    (IsType : RawObject → Bool) (CURRENT_FUNC : String)
    (body : HandleStore → Dart_Handle → Dart_Handle × HandleStore)
    (store : HandleStore) (dart_handle : Dart_Handle) (handleText typeText : String)
    (hreject : IsType (Api.UnwrapHandle store dart_handle) = false) :
    typeCheckedOperation AcquiredError isolate IsType CURRENT_FUNC body store dart_handle
        handleText typeText
      = RETURN_TYPE_ERROR AcquiredError isolate CURRENT_FUNC store dart_handle handleText
          typeText ∧
    ((Api.UnwrapHandle store dart_handle).IsError = true →
      RETURN_TYPE_ERROR AcquiredError isolate CURRENT_FUNC store dart_handle handleText typeText
        = (dart_handle, store)) ∧
    (0 < isolate.no_callback_scope_depth →
      (Api.UnwrapHandle store dart_handle).IsError = false →
      RETURN_TYPE_ERROR AcquiredError isolate CURRENT_FUNC store dart_handle handleText typeText
        = (AcquiredError isolate, store)) ∧
    (isolate.no_callback_scope_depth = 0 →
      (Api.UnwrapHandle store dart_handle).IsNull = false →
      (Api.UnwrapHandle store dart_handle).IsError = false →
      (RETURN_TYPE_ERROR AcquiredError isolate CURRENT_FUNC store dart_handle handleText
          typeText).1 = store.next ∧
      (RETURN_TYPE_ERROR AcquiredError isolate CURRENT_FUNC store dart_handle handleText
          typeText).2.next = store.next + 1 ∧
      IsErrorHandle
        (RETURN_TYPE_ERROR AcquiredError isolate CURRENT_FUNC store dart_handle handleText
          typeText).2
        (RETURN_TYPE_ERROR AcquiredError isolate CURRENT_FUNC store dart_handle handleText
          typeText).1
        (CURRENT_FUNC ++ " expects argument '" ++ handleText ++ "' to be of type " ++
          typeText ++ ".") ∧
      Mentions (CURRENT_FUNC ++ " expects argument '" ++ handleText ++ "' to be of type " ++
          typeText ++ ".") CURRENT_FUNC ∧
      Mentions (CURRENT_FUNC ++ " expects argument '" ++ handleText ++ "' to be of type " ++
          typeText ++ ".") handleText ∧
      Mentions (CURRENT_FUNC ++ " expects argument '" ++ handleText ++ "' to be of type " ++
          typeText ++ ".") typeText) ∧
    (isolate.no_callback_scope_depth = 0 →
      (Api.UnwrapHandle store dart_handle).IsNull = true →
      (RETURN_TYPE_ERROR AcquiredError isolate CURRENT_FUNC store dart_handle handleText
          typeText).1 = store.next ∧
      (RETURN_TYPE_ERROR AcquiredError isolate CURRENT_FUNC store dart_handle handleText
          typeText).2.next = store.next + 1 ∧
      IsErrorHandle
        (RETURN_TYPE_ERROR AcquiredError isolate CURRENT_FUNC store dart_handle handleText
          typeText).2
        (RETURN_TYPE_ERROR AcquiredError isolate CURRENT_FUNC store dart_handle handleText
          typeText).1
        (CURRENT_FUNC ++ " expects argument '" ++ handleText ++ "' to be non-null.") ∧
      Mentions (CURRENT_FUNC ++ " expects argument '" ++ handleText ++ "' to be non-null.")
        CURRENT_FUNC ∧
      Mentions (CURRENT_FUNC ++ " expects argument '" ++ handleText ++ "' to be non-null.")
        handleText) := by
  refine ⟨?_, ?_, ?_, ?_, ?_⟩
  · simp [typeCheckedOperation, Api.UnwrapTypeHandle, hreject, RawObject.IsNull]
  · intro herr
    cases hobj : Api.UnwrapHandle store dart_handle with
    | null => simp [hobj, RawObject.IsError] at herr
    | error m =>
      simp [RETURN_TYPE_ERROR, returnTypeErrorOn, hobj, RawObject.IsNull, RawObject.IsError]
    | object cid => simp [hobj, RawObject.IsError] at herr
  · intro hguard herr
    cases hnull : (Api.UnwrapHandle store dart_handle).IsNull with
    | true =>
      simp only [RETURN_TYPE_ERROR, returnTypeErrorOn, hnull, if_true]
      exact newError_guarded _ _ _ _ _ hguard
    | false =>
      simp only [RETURN_TYPE_ERROR, returnTypeErrorOn, hnull, herr, if_false,
        Bool.false_eq_true]
      exact newError_guarded _ _ _ _ _ hguard
  · intro hdepth hnull herr
    have hr : RETURN_TYPE_ERROR AcquiredError isolate CURRENT_FUNC store dart_handle
          handleText typeText
        = Api.NewError AcquiredError isolate store "%s expects argument '%s' to be of type %s."
            [FormatArg.str CURRENT_FUNC, FormatArg.str handleText, FormatArg.str typeText] := by
      simp [RETURN_TYPE_ERROR, returnTypeErrorOn, hnull, herr]
    obtain ⟨h1, h2, h3⟩ := newError_unguarded AcquiredError isolate store
      "%s expects argument '%s' to be of type %s."
      [FormatArg.str CURRENT_FUNC, FormatArg.str handleText, FormatArg.str typeText] hdepth
    rw [hr, ← vformat_of_type_text]
    refine ⟨h1, h2, h3, ?_, ?_, ?_⟩
    · rw [vformat_of_type]; exact mentions_first _ _ _ rfl
    · rw [vformat_of_type]; exact mentions_third _ _ _ _ _ rfl
    · rw [vformat_of_type]; exact mentions_fifth _ _ _ _ _ _ _ rfl
  · intro hdepth hnull
    have hr : RETURN_TYPE_ERROR AcquiredError isolate CURRENT_FUNC store dart_handle
          handleText typeText
        = Api.NewError AcquiredError isolate store "%s expects argument '%s' to be non-null."
            [FormatArg.str CURRENT_FUNC, FormatArg.str handleText] := by
      simp [RETURN_TYPE_ERROR, returnTypeErrorOn, hnull]
    obtain ⟨h1, h2, h3⟩ := newError_unguarded AcquiredError isolate store
      "%s expects argument '%s' to be non-null."
      [FormatArg.str CURRENT_FUNC, FormatArg.str handleText] hdepth
    rw [hr, ← vformat_non_null_text]
    refine ⟨h1, h2, h3, ?_, ?_⟩
    · rw [vformat_non_null]; exact mentions_first _ _ _ rfl
    · rw [vformat_non_null]; exact mentions_third _ _ _ _ _ rfl

/-- C2, amended, at a concrete call with no guard active: `Dart_ClosureFunction` is
handed a handle to an object of class 7 where class 42 is requested; the new error in
slot 1 names the operation, the argument and the type. -/
theorem return_type_error_message_witness :
    (RETURN_TYPE_ERROR (fun _ => 0) ⟨some ⟨some ⟨1⟩, 0⟩, 0⟩ "Dart_ClosureFunction"
        ⟨fun _ => RawObject.object 7, 1⟩ 0 "closure" "Instance").1 = 1 ∧
    (RETURN_TYPE_ERROR (fun _ => 0) ⟨some ⟨some ⟨1⟩, 0⟩, 0⟩ "Dart_ClosureFunction"
        ⟨fun _ => RawObject.object 7, 1⟩ 0 "closure" "Instance").2.next = 1 + 1 ∧
    IsErrorHandle
      (RETURN_TYPE_ERROR (fun _ => 0) ⟨some ⟨some ⟨1⟩, 0⟩, 0⟩ "Dart_ClosureFunction"
        ⟨fun _ => RawObject.object 7, 1⟩ 0 "closure" "Instance").2
      (RETURN_TYPE_ERROR (fun _ => 0) ⟨some ⟨some ⟨1⟩, 0⟩, 0⟩ "Dart_ClosureFunction"
        ⟨fun _ => RawObject.object 7, 1⟩ 0 "closure" "Instance").1
      ("Dart_ClosureFunction" ++ " expects argument '" ++ "closure" ++ "' to be of type " ++
        "Instance" ++ ".") ∧
    Mentions ("Dart_ClosureFunction" ++ " expects argument '" ++ "closure" ++
        "' to be of type " ++ "Instance" ++ ".") "Dart_ClosureFunction" ∧
    Mentions ("Dart_ClosureFunction" ++ " expects argument '" ++ "closure" ++
        "' to be of type " ++ "Instance" ++ ".") "closure" ∧
    Mentions ("Dart_ClosureFunction" ++ " expects argument '" ++ "closure" ++
        "' to be of type " ++ "Instance" ++ ".") "Instance" :=
  (return_type_error_message (fun _ => 0) ⟨some ⟨some ⟨1⟩, 0⟩, 0⟩
    (fun o => decide (o = RawObject.object 42))
    "Dart_ClosureFunction" (fun st h => (h, st)) ⟨fun _ => RawObject.object 7, 1⟩ 0
    "closure" "Instance" (by decide)).2.2.2.1 rfl rfl rfl

/-- C3, as stated, fails in two places.  While a no-callback guard is active (depth 1),
`Dart_NewList` rejects length 11 against bound 10 by returning the acquired-error
handle 0, whose message names neither the operation nor the range.  And with the
negative bound -1 the length 0 is rejected, so 0 is not always accepted. -/
theorem check_length_guarded_returns_acquired_error :
    (∃ r, CHECK_LENGTH (fun _ => 0) ⟨some ⟨some ⟨1⟩, 0⟩, 1⟩ "Dart_NewList"
          ⟨fun h => if h = 0 then RawObject.error "Data pointers have been acquired."
            else RawObject.null, 1⟩ 11 "length" 10 = some r ∧
        r.1 = 0 ∧ r.2.next = 1 ∧
        IsErrorHandle r.2 r.1 "Data pointers have been acquired." ∧
        ¬ Mentions "Data pointers have been acquired." "Dart_NewList" ∧
        ¬ Mentions "Data pointers have been acquired." "[0..10]") ∧
    (CHECK_LENGTH (fun _ => 0) ⟨some ⟨some ⟨1⟩, 0⟩, 0⟩ "Dart_NewList"
        ⟨fun _ => RawObject.null, 1⟩ 0 "length" (-1)).isSome = true := by
  refine ⟨⟨(0, ⟨fun h => if h = 0 then RawObject.error "Data pointers have been acquired."
    else RawObject.null, 1⟩), ?_, rfl, rfl, by decide, by decide, by decide⟩, ?_⟩
  · simp [CHECK_LENGTH, Api.NewError]
  · simp [CHECK_LENGTH]

/-- C3, amended: `CHECK_LENGTH` makes the enclosing operation return exactly when
`length < 0` or `length > max_elements`, so the lengths `0` and `max_elements` are
accepted exactly when `max_elements` is not negative.  With no no-callback guard
active, what is returned is a newly created error whose message is
`<op> expects argument '<arg>' to be in the range [0..<max_elements>].`, which contains
the operation name, the argument text and the range; while a guard is active, the
acquired-error handle is returned and the store is unchanged. -/
theorem check_length_rejects_iff_out_of_range (AcquiredError : Isolate → Dart_Handle)
    (isolate : Isolate) (CURRENT_FUNC : String) (store : HandleStore)
    (length : Int) (lengthText : String) (max_elements : Int) :
    ((CHECK_LENGTH AcquiredError isolate CURRENT_FUNC store length lengthText
          max_elements).isSome
        ↔ (length < 0 ∨ length > max_elements)) ∧
    (CHECK_LENGTH AcquiredError isolate CURRENT_FUNC store 0 lengthText max_elements = none
        ↔ 0 ≤ max_elements) ∧
    (CHECK_LENGTH AcquiredError isolate CURRENT_FUNC store max_elements lengthText
          max_elements = none
        ↔ 0 ≤ max_elements) ∧
    (isolate.no_callback_scope_depth = 0 →
      ∀ r, CHECK_LENGTH AcquiredError isolate CURRENT_FUNC store length lengthText
          max_elements = some r →
        r.1 = store.next ∧ r.2.next = store.next + 1 ∧
        IsErrorHandle r.2 r.1
          (CURRENT_FUNC ++ " expects argument '" ++ lengthText ++ "' to be in the range " ++
            ("[0.." ++ toString max_elements ++ "]") ++ ".") ∧
        Mentions (CURRENT_FUNC ++ " expects argument '" ++ lengthText ++
            "' to be in the range " ++ ("[0.." ++ toString max_elements ++ "]") ++ ".")
          CURRENT_FUNC ∧
        Mentions (CURRENT_FUNC ++ " expects argument '" ++ lengthText ++
            "' to be in the range " ++ ("[0.." ++ toString max_elements ++ "]") ++ ".")
          lengthText ∧
        Mentions (CURRENT_FUNC ++ " expects argument '" ++ lengthText ++
            "' to be in the range " ++ ("[0.." ++ toString max_elements ++ "]") ++ ".")
          ("[0.." ++ toString max_elements ++ "]")) ∧
    (0 < isolate.no_callback_scope_depth →
      ∀ r, CHECK_LENGTH AcquiredError isolate CURRENT_FUNC store length lengthText
          max_elements = some r →
        r = (AcquiredError isolate, store)) := by
  refine ⟨?_, ?_, ?_, ?_, ?_⟩
  · by_cases h : length < 0 ∨ length > max_elements
    · simp [CHECK_LENGTH, h]
    · simp only [CHECK_LENGTH, h, if_false, Option.isSome_none, iff_false]
      simp
  · by_cases h : (0 : Int) < 0 ∨ (0 : Int) > max_elements
    · have hneg : ¬ 0 ≤ max_elements := by omega
      simp only [CHECK_LENGTH, h, if_true]
      simp [hneg]
    · have hpos : 0 ≤ max_elements := by omega
      simp only [CHECK_LENGTH, h, if_false]
      simp [hpos]
  · by_cases h : max_elements < 0 ∨ max_elements > max_elements
    · have hneg : ¬ 0 ≤ max_elements := by omega
      simp only [CHECK_LENGTH, h, if_true]
      simp [hneg]
    · have hpos : 0 ≤ max_elements := by omega
      simp only [CHECK_LENGTH, h, if_false]
      simp [hpos]
  · intro hdepth r hr
    by_cases h : length < 0 ∨ length > max_elements
    · simp only [CHECK_LENGTH, h, if_true, Option.some.injEq] at hr
      subst hr
      obtain ⟨h1, h2, h3⟩ := newError_unguarded AcquiredError isolate store
        ("%s expects argument '%s' to be in the range [0..%" ++ Pd ++ "].")
        [FormatArg.str CURRENT_FUNC, FormatArg.str lengthText, FormatArg.intptr max_elements]
        hdepth
      rw [← vformat_range_text]
      refine ⟨h1, h2, h3, ?_, ?_, ?_⟩
      · rw [vformat_range]; exact mentions_first _ _ _ rfl
      · rw [vformat_range]; exact mentions_third _ _ _ _ _ rfl
      · rw [vformat_range]; exact mentions_fifth _ _ _ _ _ _ _ rfl
    · simp [CHECK_LENGTH, h] at hr
  · intro hguard r hr
    by_cases h : length < 0 ∨ length > max_elements
    · simp only [CHECK_LENGTH, h, if_true, Option.some.injEq] at hr
      subst hr
      exact newError_guarded _ _ _ _ _ hguard
    · simp [CHECK_LENGTH, h] at hr

/-- C3, amended, at a concrete call with no guard active: with bound 10, length 11 is
rejected by a new error in slot 3 whose message names `Dart_NewList`, `length` and
`[0..10]`. -/
theorem check_length_rejects_iff_out_of_range_witness :
    (Api.NewError (fun _ => 0) ⟨some ⟨some ⟨1⟩, 0⟩, 0⟩ ⟨fun _ => RawObject.null, 3⟩
        ("%s expects argument '%s' to be in the range [0..%" ++ Pd ++ "].")
        [FormatArg.str "Dart_NewList", FormatArg.str "length", FormatArg.intptr 10]).1 = 3 ∧
    (Api.NewError (fun _ => 0) ⟨some ⟨some ⟨1⟩, 0⟩, 0⟩ ⟨fun _ => RawObject.null, 3⟩
        ("%s expects argument '%s' to be in the range [0..%" ++ Pd ++ "].")
        [FormatArg.str "Dart_NewList", FormatArg.str "length", FormatArg.intptr 10]).2.next
      = 3 + 1 ∧
    IsErrorHandle
      (Api.NewError (fun _ => 0) ⟨some ⟨some ⟨1⟩, 0⟩, 0⟩ ⟨fun _ => RawObject.null, 3⟩
        ("%s expects argument '%s' to be in the range [0..%" ++ Pd ++ "].")
        [FormatArg.str "Dart_NewList", FormatArg.str "length", FormatArg.intptr 10]).2
      (Api.NewError (fun _ => 0) ⟨some ⟨some ⟨1⟩, 0⟩, 0⟩ ⟨fun _ => RawObject.null, 3⟩
        ("%s expects argument '%s' to be in the range [0..%" ++ Pd ++ "].")
        [FormatArg.str "Dart_NewList", FormatArg.str "length", FormatArg.intptr 10]).1
      ("Dart_NewList" ++ " expects argument '" ++ "length" ++ "' to be in the range " ++
        ("[0.." ++ toString (10 : Int) ++ "]") ++ ".") ∧
    Mentions ("Dart_NewList" ++ " expects argument '" ++ "length" ++ "' to be in the range " ++
        ("[0.." ++ toString (10 : Int) ++ "]") ++ ".") "Dart_NewList" ∧
    Mentions ("Dart_NewList" ++ " expects argument '" ++ "length" ++ "' to be in the range " ++
        ("[0.." ++ toString (10 : Int) ++ "]") ++ ".") "length" ∧
    Mentions ("Dart_NewList" ++ " expects argument '" ++ "length" ++ "' to be in the range " ++
        ("[0.." ++ toString (10 : Int) ++ "]") ++ ".") ("[0.." ++ toString (10 : Int) ++ "]") :=
  (check_length_rejects_iff_out_of_range (fun _ => 0) ⟨some ⟨some ⟨1⟩, 0⟩, 0⟩ "Dart_NewList"
    ⟨fun _ => RawObject.null, 3⟩ 11 "length" 10).2.2.2.1 rfl _ (by simp [CHECK_LENGTH])

/-- C12: given a handle that already holds an error object, `RETURN_TYPE_ERROR` returns
that very handle and leaves the handle store as it was, so no error is created and the
handle still designates the original message.  Whenever a new error is created, the
object is either null, and the error is the `to be non-null` error of
`RETURN_NULL_ERROR`, or non-null and not an error, and the error is the `to be of type`
error; whenever none is created the store is unchanged.  With no no-callback guard
active an error is created in both of these cases, and while a guard is active none
is.  The null test comes first: when it succeeds the non-null branch is taken whatever
the error test would say. -/
theorem return_type_error_passes_error_through (AcquiredError : Isolate → Dart_Handle)
    (isolate : Isolate) (CURRENT_FUNC : String) (store : HandleStore)
    (dart_handle : Dart_Handle) (handleText typeText : String) :
    (∀ msg, Api.UnwrapHandle store dart_handle = RawObject.error msg →
      RETURN_TYPE_ERROR AcquiredError isolate CURRENT_FUNC store dart_handle handleText typeText
        = (dart_handle, store) ∧
      IsErrorHandle
        (RETURN_TYPE_ERROR AcquiredError isolate CURRENT_FUNC store dart_handle handleText
          typeText).2
        (RETURN_TYPE_ERROR AcquiredError isolate CURRENT_FUNC store dart_handle handleText
          typeText).1 msg) ∧
    ((RETURN_TYPE_ERROR AcquiredError isolate CURRENT_FUNC store dart_handle handleText
          typeText).2.next ≠ store.next →
      ((Api.UnwrapHandle store dart_handle).IsNull = true ∧
        RETURN_TYPE_ERROR AcquiredError isolate CURRENT_FUNC store dart_handle handleText
            typeText
          = RETURN_NULL_ERROR AcquiredError isolate CURRENT_FUNC store handleText ∧
        (RETURN_TYPE_ERROR AcquiredError isolate CURRENT_FUNC store dart_handle handleText
            typeText).1 = store.next ∧
        IsErrorHandle
          (RETURN_TYPE_ERROR AcquiredError isolate CURRENT_FUNC store dart_handle handleText
            typeText).2
          (RETURN_TYPE_ERROR AcquiredError isolate CURRENT_FUNC store dart_handle handleText
            typeText).1
          (CURRENT_FUNC ++ " expects argument '" ++ handleText ++ "' to be non-null.") ∧
        Mentions (CURRENT_FUNC ++ " expects argument '" ++ handleText ++ "' to be non-null.")
          "to be non-null") ∨
      ((Api.UnwrapHandle store dart_handle).IsNull = false ∧
        (Api.UnwrapHandle store dart_handle).IsError = false ∧
        (RETURN_TYPE_ERROR AcquiredError isolate CURRENT_FUNC store dart_handle handleText
            typeText).1 = store.next ∧
        IsErrorHandle
          (RETURN_TYPE_ERROR AcquiredError isolate CURRENT_FUNC store dart_handle handleText
            typeText).2
          (RETURN_TYPE_ERROR AcquiredError isolate CURRENT_FUNC store dart_handle handleText
            typeText).1
          (CURRENT_FUNC ++ " expects argument '" ++ handleText ++ "' to be of type " ++
            typeText ++ ".") ∧
        Mentions (CURRENT_FUNC ++ " expects argument '" ++ handleText ++ "' to be of type " ++
            typeText ++ ".") "to be of type")) ∧
    ((RETURN_TYPE_ERROR AcquiredError isolate CURRENT_FUNC store dart_handle handleText
          typeText).2.next = store.next →
      (RETURN_TYPE_ERROR AcquiredError isolate CURRENT_FUNC store dart_handle handleText
          typeText).2 = store) ∧
    (isolate.no_callback_scope_depth = 0 →
      (Api.UnwrapHandle store dart_handle).IsError = false →
      (RETURN_TYPE_ERROR AcquiredError isolate CURRENT_FUNC store dart_handle handleText
          typeText).2.next = store.next + 1) ∧
    (0 < isolate.no_callback_scope_depth →
      (RETURN_TYPE_ERROR AcquiredError isolate CURRENT_FUNC store dart_handle handleText
          typeText).2 = store) ∧
    (∀ isError, returnTypeErrorOn true isError AcquiredError isolate CURRENT_FUNC store
        dart_handle handleText typeText
      = RETURN_NULL_ERROR AcquiredError isolate CURRENT_FUNC store handleText) := by
  have hnullcase : (Api.UnwrapHandle store dart_handle).IsNull = true →
      RETURN_TYPE_ERROR AcquiredError isolate CURRENT_FUNC store dart_handle handleText typeText
        = Api.NewError AcquiredError isolate store "%s expects argument '%s' to be non-null."
            [FormatArg.str CURRENT_FUNC, FormatArg.str handleText] := by
    intro hnull
    simp [RETURN_TYPE_ERROR, returnTypeErrorOn, hnull]
  have htypecase : (Api.UnwrapHandle store dart_handle).IsNull = false →
      (Api.UnwrapHandle store dart_handle).IsError = false →
      RETURN_TYPE_ERROR AcquiredError isolate CURRENT_FUNC store dart_handle handleText typeText
        = Api.NewError AcquiredError isolate store "%s expects argument '%s' to be of type %s."
            [FormatArg.str CURRENT_FUNC, FormatArg.str handleText, FormatArg.str typeText] := by
    intro hnull herr
    simp [RETURN_TYPE_ERROR, returnTypeErrorOn, hnull, herr]
  have herrcase : (Api.UnwrapHandle store dart_handle).IsNull = false →
      (Api.UnwrapHandle store dart_handle).IsError = true →
      RETURN_TYPE_ERROR AcquiredError isolate CURRENT_FUNC store dart_handle handleText typeText
        = (dart_handle, store) := by
    intro hnull herr
    simp [RETURN_TYPE_ERROR, returnTypeErrorOn, hnull, herr]
  refine ⟨?_, ?_, ?_, ?_, ?_, ?_⟩
  · intro msg hobj
    have hr := herrcase (by simp [hobj, RawObject.IsNull]) (by simp [hobj, RawObject.IsError])
    rw [hr]
    exact ⟨rfl, hobj⟩
  · intro hnew
    cases hnull : (Api.UnwrapHandle store dart_handle).IsNull with
    | true =>
      left
      have hr := hnullcase hnull
      rw [hr] at hnew ⊢
      rcases newError_created_or_not AcquiredError isolate store
        "%s expects argument '%s' to be non-null."
        [FormatArg.str CURRENT_FUNC, FormatArg.str handleText] with ⟨_, hsame⟩ | ⟨h1, _, h3⟩
      · rw [hsame] at hnew
        exact absurd rfl hnew
      · rw [← vformat_non_null_text]
        exact ⟨rfl, rfl, h1, h3, mentions_non_null_text _ _⟩
    | false =>
      cases herr : (Api.UnwrapHandle store dart_handle).IsError with
      | true =>
        rw [herrcase hnull herr] at hnew
        exact absurd rfl hnew
      | false =>
        right
        have hr := htypecase hnull herr
        rw [hr] at hnew ⊢
        rcases newError_created_or_not AcquiredError isolate store
          "%s expects argument '%s' to be of type %s."
          [FormatArg.str CURRENT_FUNC, FormatArg.str handleText, FormatArg.str typeText]
          with ⟨_, hsame⟩ | ⟨h1, _, h3⟩
        · rw [hsame] at hnew
          exact absurd rfl hnew
        · rw [← vformat_of_type_text]
          exact ⟨rfl, rfl, h1, h3, mentions_of_type_text _ _ _⟩
  · intro hsame
    cases hnull : (Api.UnwrapHandle store dart_handle).IsNull with
    | true =>
      rw [hnullcase hnull] at hsame ⊢
      rcases newError_created_or_not AcquiredError isolate store
        "%s expects argument '%s' to be non-null."
        [FormatArg.str CURRENT_FUNC, FormatArg.str handleText] with ⟨_, h⟩ | ⟨_, h2, _⟩
      · rw [h]
      · exact absurd (h2.symm.trans hsame) (Nat.succ_ne_self store.next)
    | false =>
      cases herr : (Api.UnwrapHandle store dart_handle).IsError with
      | true => rw [herrcase hnull herr]
      | false =>
        rw [htypecase hnull herr] at hsame ⊢
        rcases newError_created_or_not AcquiredError isolate store
          "%s expects argument '%s' to be of type %s."
          [FormatArg.str CURRENT_FUNC, FormatArg.str handleText, FormatArg.str typeText]
          with ⟨_, h⟩ | ⟨_, h2, _⟩
        · rw [h]
        · exact absurd (h2.symm.trans hsame) (Nat.succ_ne_self store.next)
  · intro hdepth herr
    cases hnull : (Api.UnwrapHandle store dart_handle).IsNull with
    | true =>
      rw [hnullcase hnull]
      exact (newError_unguarded _ _ _ _ _ hdepth).2.1
    | false =>
      rw [htypecase hnull herr]
      exact (newError_unguarded _ _ _ _ _ hdepth).2.1
  · intro hguard
    cases hnull : (Api.UnwrapHandle store dart_handle).IsNull with
    | true => rw [hnullcase hnull, newError_guarded _ _ _ _ _ hguard]
    | false =>
      cases herr : (Api.UnwrapHandle store dart_handle).IsError with
      | true => rw [herrcase hnull herr]
      | false => rw [htypecase hnull herr, newError_guarded _ _ _ _ _ hguard]
  · intro isError
    simp [returnTypeErrorOn, RETURN_NULL_ERROR]

/-- C12 at a concrete call: slot 0 holds an error with message `boom`; the call returns
handle 0, the store is the one passed in, and handle 0 still designates `boom`. -/
theorem return_type_error_passes_error_through_witness :
    RETURN_TYPE_ERROR (fun _ => 5) ⟨some ⟨some ⟨1⟩, 5⟩, 0⟩ "Dart_StringLength"
        ⟨fun _ => RawObject.error "boom", 1⟩ 0 "str" "String"
      = (0, ⟨fun _ => RawObject.error "boom", 1⟩) ∧
    IsErrorHandle
      (RETURN_TYPE_ERROR (fun _ => 5) ⟨some ⟨some ⟨1⟩, 5⟩, 0⟩ "Dart_StringLength"
        ⟨fun _ => RawObject.error "boom", 1⟩ 0 "str" "String").2
      (RETURN_TYPE_ERROR (fun _ => 5) ⟨some ⟨some ⟨1⟩, 5⟩, 0⟩ "Dart_StringLength"
        ⟨fun _ => RawObject.error "boom", 1⟩ 0 "str" "String").1 "boom" :=
  (return_type_error_passes_error_through (fun _ => 5) ⟨some ⟨some ⟨1⟩, 5⟩, 0⟩
    "Dart_StringLength" ⟨fun _ => RawObject.error "boom", 1⟩ 0 "str" "String").1 "boom" rfl

end Dart


